import Mathlib

/-!
The Xwayland window manager (xwayland/xwm.c)

A shallow embedding of the window tracking code of `xwayland/xwm.c`: the three
intrusive lists of `struct wlr_xwayland_surface` (new, unpaired, displayable),
the X11 event handlers, the surface-created listener and the atom bootstrap.

Conventions of the embedding.

* A `wl_list` is a Lean list in iteration order: `wl_list_insert (list, elm)`
  puts `elm` at the head, `wl_list_for_each` walks from the head.
* A `struct wlr_xwayland_surface *` obtained from a scan of a list denotes the
  first node of that list passing the test of the scan. Functions that take such
  a pointer take the list it is linked into, the test, and the node's contents.
* Requests written to the X11 connection and signals emitted to listeners are
  collected, in program order, in a list of `Effect`. Calls to `wlr_log` are not
  recorded.
* What the code asks of its surroundings (whether `calloc` succeeds, the object
  table of the Xwayland client, the outcome of a checked request) is an `Env`
  handed to each handler.
* Where the identity of a node matters (two nodes may hold the same values), the
  handlers are run on nodes that carry the serial number of their allocation
  (`tracked_xwm`, `tracked_run`); forgetting the serials gives back the run on
  plain nodes, state and effects (`forget_tracked_run`).
-/

namespace Xwm

/-! ## Constants of xwm.h and of the xcb headers -/

/-- Index of the atom named WL_SURFACE_ID in atom_map -/
def WL_SURFACE_ID : Nat := 0
/-- Index of the atom named WM_PROTOCOLS in atom_map -/
def WM_PROTOCOLS : Nat := 1
/-- Index of the atom named WM_S0 in atom_map -/
def WM_S0 : Nat := 2
/-- Index of the atom named _NET_SUPPORTED in atom_map -/
def NET_SUPPORTED : Nat := 3
/-- Index of the atom named _NET_WM_S0 in atom_map -/
def NET_WM_S0 : Nat := 4
/-- Index of the atom named _NET_WM_STATE in atom_map -/
def NET_WM_STATE : Nat := 5
/-- Index of the atom named WM_TAKE_FOCUS in atom_map -/
def WM_TAKE_FOCUS : Nat := 6
/-- Number of atoms -/
def ATOM_LAST : Nat := 7

/-- The names resolved at start-up, in slot order -/
def atom_map : List String :=
  ["WL_SURFACE_ID", "WM_PROTOCOLS", "WM_S0", "_NET_SUPPORTED", "_NET_WM_S0",
   "_NET_WM_STATE", "WM_TAKE_FOCUS"]

def XCB_CREATE_NOTIFY : Nat := 16
def XCB_DESTROY_NOTIFY : Nat := 17
def XCB_UNMAP_NOTIFY : Nat := 18
def XCB_MAP_NOTIFY : Nat := 19
def XCB_MAP_REQUEST : Nat := 20
def XCB_CONFIGURE_REQUEST : Nat := 23
def XCB_PROPERTY_NOTIFY : Nat := 28
def XCB_CLIENT_MESSAGE : Nat := 33

def XCB_CONFIG_WINDOW_X : Nat := 1
def XCB_CONFIG_WINDOW_Y : Nat := 2
def XCB_CONFIG_WINDOW_WIDTH : Nat := 4
def XCB_CONFIG_WINDOW_HEIGHT : Nat := 8
def XCB_CONFIG_WINDOW_BORDER_WIDTH : Nat := 16
def XCB_CONFIG_WINDOW_STACK_MODE : Nat := 64
def XCB_STACK_MODE_ABOVE : Nat := 0

def XCB_CW_EVENT_MASK : Nat := 2048
def XCB_EVENT_MASK_SUBSTRUCTURE_REDIRECT : Nat := 1048576
def XCB_EVENT_MASK_FOCUS_CHANGE : Nat := 2097152
def XCB_EVENT_MASK_PROPERTY_CHANGE : Nat := 4194304
def XCB_INPUT_FOCUS_POINTER_ROOT : Nat := 1
def XCB_CURRENT_TIME : Nat := 0
def XCB_TIME_CURRENT_TIME : Nat := 0

/-- The macro of the same name in xwm.c -/
def XCB_EVENT_RESPONSE_TYPE_MASK : Nat := 0x7f

/-- Conversion of a C integer to uint32_t -/
def to_uint32 (i : Int) : Nat := (i % 4294967296).toNat

/-! ## Data model -/

/-- A wl_resource, as far as the code looks at it: its object id and its client -/
structure wl_resource where
  id : Nat
  client : Nat
  deriving DecidableEq, Repr

/-- A struct wlr_surface, as far as the code looks at it -/
structure wlr_surface where
  resource : wl_resource
  deriving DecidableEq, Repr

/-- The struct wlr_xwayland_surface: one tracked X11 window -/
structure wlr_xwayland_surface where
  window_id : Nat
  surface_id : Nat
  surface : Option wlr_surface
  x : Int
  y : Int
  width : Nat
  height : Nat
  override_redirect : Bool
  deriving DecidableEq, Repr

/-- The three lists a node can be linked into -/
inductive surface_list where
  | displayable
  | unpaired
  | new
  deriving DecidableEq, Repr

/-- The struct wlr_xwm together with the fields of struct wlr_xwayland it uses
(displayable_surfaces and client) -/
structure wlr_xwm where
  atoms : List Nat
  client : Nat
  new_surfaces : List wlr_xwayland_surface
  unpaired_surfaces : List wlr_xwayland_surface
  displayable_surfaces : List wlr_xwayland_surface
  deriving DecidableEq, Repr

/-- An X11 event as the handlers read it after the cast to their event struct:
the union of the fields that the eight handlers look at -/
structure xcb_generic_event_t where
  response_type : Nat
  window : Nat
  x : Int
  y : Int
  width : Nat
  height : Nat
  override_redirect : Bool
  type : Nat
  data32 : List Nat
  deriving DecidableEq, Repr

/-- Requests sent on the X11 connection and signals emitted to listeners -/
inductive Effect where
  | signal_destroy (surface : wlr_xwayland_surface)
  | signal_new_surface (surface : wlr_xwayland_surface)
  | xcb_configure_window (window mask : Nat) (values : List Nat)
  | xcb_change_window_attributes_checked (window mask : Nat) (values : List Nat)
  | xcb_map_window_checked (window : Nat)
  | xcb_send_event_checked (propagate destination event_mask : Nat)
      (event : xcb_generic_event_t) (format : Nat)
  | xcb_set_input_focus_checked (revert_to focus time : Nat)
  | xcb_configure_window_checked (window mask : Nat) (values : List Nat)
  | xcb_flush
  | wl_event_source_remove
  | wl_list_remove_listener
  | xcb_disconnect
  deriving DecidableEq, Repr

/-- What a handler asks of its surroundings while it runs -/
structure Env where
  /-- whether calloc returns memory -/
  calloc : Bool
  /-- the object table of a client: wl_client_get_object (client, id) -/
  wl_client_get_object : Nat → Nat → Option wl_resource
  /-- the wlr_surface a surface resource carries as user data -/
  wl_resource_get_user_data : wl_resource → wlr_surface
  /-- the error code xcb_request_check reports for a checked request, if any -/
  xcb_request_check : Effect → Option Nat

/-- The value of ev->data.data32[i] -/
def xcb_generic_event_t.data32_at (ev : xcb_generic_event_t) (i : Nat) : Nat :=
  ev.data32.getD i 0

/-- The value of xwm->atoms[i] -/
def wlr_xwm.atom (xwm : wlr_xwm) (i : Nat) : Nat := xwm.atoms.getD i 0

/-- The list a node is linked into -/
def wlr_xwm.get_list (xwm : wlr_xwm) : surface_list → List wlr_xwayland_surface
  | .displayable => xwm.displayable_surfaces
  | .unpaired => xwm.unpaired_surfaces
  | .new => xwm.new_surfaces

/-- Replace one of the three lists -/
def wlr_xwm.set_list (xwm : wlr_xwm) (l : surface_list)
    (v : List wlr_xwayland_surface) : wlr_xwm :=
  match l with
  | .displayable => { xwm with displayable_surfaces := v }
  | .unpaired => { xwm with unpaired_surfaces := v }
  | .new => { xwm with new_surfaces := v }

/-- The test of the scan in lookup_surface -/
def by_window (window_id : Nat) (surface : wlr_xwayland_surface) : Bool :=
  surface.window_id == window_id

/-- The test of the scan in create_surface_handler -/
def by_surface_id (surface_id : Nat) (surface : wlr_xwayland_surface) : Bool :=
  surface.surface_id == surface_id

/-- wl_list_insert (list, elm): link elm right after the list head -/
def wl_list_insert (list : List wlr_xwayland_surface) (elm : wlr_xwayland_surface) :
    List wlr_xwayland_surface :=
  elm :: list

/-- wl_list_remove of the first node passing test -/
def wl_list_remove (list : List wlr_xwayland_surface)
    (test : wlr_xwayland_surface → Bool) : List wlr_xwayland_surface :=
  list.eraseP test

/-- A store through the pointer to the first node passing test -/
def store (list : List wlr_xwayland_surface) (test : wlr_xwayland_surface → Bool)
    (f : wlr_xwayland_surface → wlr_xwayland_surface) : List wlr_xwayland_surface :=
  match list with
  | [] => []
  | s :: rest => if test s then f s :: rest else s :: store rest test f

/-! ## General helpers -/

/-- The function lookup_surface: the first node of the list with this window id -/
def lookup_surface (list : List wlr_xwayland_surface) (window_id : Nat) :
    Option wlr_xwayland_surface :=
  list.find? (by_window window_id)

/-- The function lookup_surface_any: displayable, then unpaired, then new. The
result names the list the node was found in. -/
def lookup_surface_any (xwm : wlr_xwm) (window_id : Nat) :
    Option (surface_list × wlr_xwayland_surface) :=
  match lookup_surface xwm.displayable_surfaces window_id with
  | some surface => some (.displayable, surface)
  | none =>
    match lookup_surface xwm.unpaired_surfaces window_id with
    | some surface => some (.unpaired, surface)
    | none =>
      match lookup_surface xwm.new_surfaces window_id with
      | some surface => some (.new, surface)
      | none => none

/-- The function wlr_xwayland_surface_create: a zeroed node with the given
identity and geometry, linked at the head of new_surfaces; nothing on
allocation failure. Returns the new node beside the state. -/
def wlr_xwayland_surface_create (xwm : wlr_xwm) (env : Env) (window_id : Nat)
    (x y : Int) (width height : Nat) (override_redirect : Bool) :
    wlr_xwm × Option wlr_xwayland_surface :=
  if env.calloc then
    let surface : wlr_xwayland_surface :=
      { window_id := window_id, surface_id := 0, surface := none, x := x, y := y,
        width := width, height := height, override_redirect := override_redirect }
    ({ xwm with new_surfaces := wl_list_insert xwm.new_surfaces surface }, some surface)
  else
    (xwm, none)

/-- The function wlr_xwayland_surface_destroy: emit the destroy signal with the
node as payload and unlink the node -/
def wlr_xwayland_surface_destroy (xwm : wlr_xwm) (list : surface_list)
    (test : wlr_xwayland_surface → Bool) (surface : wlr_xwayland_surface) :
    wlr_xwm × List Effect :=
  (xwm.set_list list (wl_list_remove (xwm.get_list list) test),
   [Effect.signal_destroy surface])

/-- The function xcb_call: true when the checked request raised no error -/
def xcb_call (env : Env) (cookie : Effect) : Bool :=
  match env.xcb_request_check cookie with
  | none => true
  | some _ => false

/-- The function map_shell_surface: bind the surface, move the node to the head
of displayable_surfaces, emit new_surface with the node as payload -/
def map_shell_surface (xwm : wlr_xwm) (list : surface_list)
    (test : wlr_xwayland_surface → Bool) (xwayland_surface : wlr_xwayland_surface)
    (surface : wlr_surface) : wlr_xwm × List Effect :=
  let xwayland_surface := { xwayland_surface with surface := some surface }
  let xwm := xwm.set_list list (wl_list_remove (xwm.get_list list) test)
  let xwm := { xwm with
    displayable_surfaces := wl_list_insert xwm.displayable_surfaces xwayland_surface }
  (xwm, [Effect.signal_new_surface xwayland_surface])

/-! ## X11 event handlers -/

/-- The function handle_create_notify -/
def handle_create_notify (xwm : wlr_xwm) (env : Env) (ev : xcb_generic_event_t) :
    wlr_xwm × List Effect :=
  ((wlr_xwayland_surface_create xwm env ev.window ev.x ev.y ev.width ev.height
      ev.override_redirect).1, [])

/-- The function handle_destroy_notify -/
def handle_destroy_notify (xwm : wlr_xwm) (ev : xcb_generic_event_t) :
    wlr_xwm × List Effect :=
  match lookup_surface_any xwm ev.window with
  | none => (xwm, [])
  | some (list, surface) =>
    wlr_xwayland_surface_destroy xwm list (by_window ev.window) surface

/-- The function handle_configure_request: store the requested geometry in the
node and replay it to the server with a zero border width -/
def handle_configure_request (xwm : wlr_xwm) (ev : xcb_generic_event_t) :
    wlr_xwm × List Effect :=
  match lookup_surface_any xwm ev.window with
  | none => (xwm, [])
  | some (list, _) =>
    let xwm := xwm.set_list list (store (xwm.get_list list) (by_window ev.window)
      (fun surface =>
        { surface with x := ev.x, y := ev.y, width := ev.width, height := ev.height }))
    let values : List Nat :=
      [to_uint32 ev.x, to_uint32 ev.y, to_uint32 ev.width, to_uint32 ev.height, 0]
    let mask : Nat :=
      XCB_CONFIG_WINDOW_X ||| XCB_CONFIG_WINDOW_Y ||| XCB_CONFIG_WINDOW_WIDTH |||
        XCB_CONFIG_WINDOW_HEIGHT ||| XCB_CONFIG_WINDOW_BORDER_WIDTH
    (xwm, [Effect.xcb_configure_window ev.window mask values])

/-- The function handle_map_request: two checked requests against the raw
window id; the results of XCB_CALL are dropped -/
def handle_map_request (xwm : wlr_xwm) (env : Env) (ev : xcb_generic_event_t) :
    wlr_xwm × List Effect :=
  let value_list : Nat := XCB_EVENT_MASK_FOCUS_CHANGE ||| XCB_EVENT_MASK_PROPERTY_CHANGE
  let c1 := Effect.xcb_change_window_attributes_checked ev.window XCB_CW_EVENT_MASK
    [value_list]
  let _ := xcb_call env c1
  let c2 := Effect.xcb_map_window_checked ev.window
  let _ := xcb_call env c2
  (xwm, [c1, c2])

/-- The function handle_map_notify -/
def handle_map_notify (xwm : wlr_xwm) (env : Env) (ev : xcb_generic_event_t) :
    wlr_xwm × List Effect :=
  match lookup_surface_any xwm ev.window with
  | some (list, _) =>
    (xwm.set_list list (store (xwm.get_list list) (by_window ev.window)
      (fun surface => { surface with override_redirect := ev.override_redirect })), [])
  | none =>
    ((wlr_xwayland_surface_create xwm env ev.window 0 0 1 1 ev.override_redirect).1, [])

/-- The function handle_unmap_notify -/
def handle_unmap_notify (xwm : wlr_xwm) (ev : xcb_generic_event_t) :
    wlr_xwm × List Effect :=
  match lookup_surface_any xwm ev.window with
  | none => (xwm, [])
  | some (list, surface) =>
    wlr_xwayland_surface_destroy xwm list (by_window ev.window) surface

/-- The function handle_property_notify: logs only -/
def handle_property_notify (xwm : wlr_xwm) (_ev : xcb_generic_event_t) :
    wlr_xwm × List Effect :=
  (xwm, [])

/-- The function handle_client_message -/
def handle_client_message (xwm : wlr_xwm) (env : Env) (ev : xcb_generic_event_t) :
    wlr_xwm × List Effect :=
  if ev.type = xwm.atom WL_SURFACE_ID then
    match lookup_surface xwm.new_surfaces ev.window with
    | none => (xwm, [])
    | some surface =>
      let surface := { surface with surface_id := ev.data32_at 0 }
      match env.wl_client_get_object xwm.client surface.surface_id with
      | some resource =>
        map_shell_surface xwm .new (by_window ev.window) surface
          (env.wl_resource_get_user_data resource)
      | none =>
        let xwm := { xwm with
          new_surfaces := wl_list_remove xwm.new_surfaces (by_window ev.window) }
        ({ xwm with unpaired_surfaces := wl_list_insert xwm.unpaired_surfaces surface }, [])
  else
    (xwm, [])

/-- The body of the loop of x11_event_handler: the switch on the low seven bits
of response_type -/
def handle_event (xwm : wlr_xwm) (env : Env) (event : xcb_generic_event_t) :
    wlr_xwm × List Effect :=
  let t := event.response_type &&& XCB_EVENT_RESPONSE_TYPE_MASK
  if t = XCB_CREATE_NOTIFY then handle_create_notify xwm env event
  else if t = XCB_DESTROY_NOTIFY then handle_destroy_notify xwm event
  else if t = XCB_CONFIGURE_REQUEST then handle_configure_request xwm event
  else if t = XCB_MAP_REQUEST then handle_map_request xwm env event
  else if t = XCB_MAP_NOTIFY then handle_map_notify xwm env event
  else if t = XCB_UNMAP_NOTIFY then handle_unmap_notify xwm event
  else if t = XCB_PROPERTY_NOTIFY then handle_property_notify xwm event
  else if t = XCB_CLIENT_MESSAGE then handle_client_message xwm env event
  else (xwm, [])

/-- The loop of x11_event_handler over the events xcb_poll_for_event hands out:
the count so far, the state and the effects so far -/
def x11_event_loop (count : Nat) (xwm : wlr_xwm) (out : List Effect) :
    List (Env × xcb_generic_event_t) → Nat × wlr_xwm × List Effect
  | [] => (count, xwm, out)
  | (env, event) :: queue =>
    let r := handle_event xwm env event
    x11_event_loop (count + 1) r.1 (out ++ r.2) queue

/-- The function x11_event_handler: drain the queue, flush, return the count -/
def x11_event_handler (xwm : wlr_xwm) (queue : List (Env × xcb_generic_event_t)) :
    Nat × wlr_xwm × List Effect :=
  let r := x11_event_loop 0 xwm [] queue
  (r.1, r.2.1, r.2.2 ++ [Effect.xcb_flush])

/-- The loop of create_surface_handler over unpaired_surfaces: the first node
whose surface_id is the id of the new surface -/
def find_unpaired (list : List wlr_xwayland_surface) (surface_id : Nat) :
    Option wlr_xwayland_surface :=
  list.find? (by_surface_id surface_id)

/-- The function create_surface_handler -/
def create_surface_handler (xwm : wlr_xwm) (surface : wlr_surface) :
    wlr_xwm × List Effect :=
  if surface.resource.client ≠ xwm.client then (xwm, [])
  else
    let surface_id := surface.resource.id
    match find_unpaired xwm.unpaired_surfaces surface_id with
    | some xwayland_surface =>
      let r := map_shell_surface xwm .unpaired (by_surface_id surface_id)
        xwayland_surface surface
      (r.1, r.2 ++ [Effect.xcb_flush])
    | none => (xwm, [])

/-! ## Actions and teardown -/

/-- The function wlr_xwayland_surface_activate: the take-focus client message,
the focus request, the raise, then the flush -/
def wlr_xwayland_surface_activate (xwm : wlr_xwm) (surface : wlr_xwayland_surface) :
    wlr_xwm × List Effect :=
  let m : xcb_generic_event_t :=
    { response_type := XCB_CLIENT_MESSAGE, window := surface.window_id, x := 0, y := 0,
      width := 0, height := 0, override_redirect := false,
      type := xwm.atom WM_PROTOCOLS,
      data32 := [xwm.atom WM_TAKE_FOCUS, XCB_TIME_CURRENT_TIME, 0, 0, 0] }
  (xwm,
   [Effect.xcb_send_event_checked 0 surface.window_id
      XCB_EVENT_MASK_SUBSTRUCTURE_REDIRECT m 32,
    Effect.xcb_set_input_focus_checked XCB_INPUT_FOCUS_POINTER_ROOT surface.window_id
      XCB_CURRENT_TIME,
    Effect.xcb_configure_window_checked surface.window_id XCB_CONFIG_WINDOW_STACK_MODE
      [XCB_STACK_MODE_ABOVE],
    Effect.xcb_flush])

/-- One wl_list_for_each_safe loop of xwm_destroy over the nodes of a list: each
node is the head of its list when wlr_xwayland_surface_destroy is called on it -/
def xwm_destroy_loop (xwm : wlr_xwm) (list : surface_list) :
    List wlr_xwayland_surface → wlr_xwm × List Effect
  | [] => (xwm, [])
  | surface :: tmp =>
    let r := wlr_xwayland_surface_destroy xwm list (fun _ => true) surface
    let r2 := xwm_destroy_loop r.1 list tmp
    (r2.1, r.2 ++ r2.2)

/-- The function xwm_destroy on a window manager that is not NULL; event_source
tells whether xwm->event_source is set. What is left is the state right before
free (xwm). -/
def xwm_destroy (xwm : wlr_xwm) (event_source : Bool) : wlr_xwm × List Effect :=
  let e0 := if event_source then [Effect.wl_event_source_remove] else []
  let r1 := xwm_destroy_loop xwm .displayable xwm.displayable_surfaces
  let r2 := xwm_destroy_loop r1.1 .new r1.1.new_surfaces
  let r3 := xwm_destroy_loop r2.1 .unpaired r2.1.unpaired_surfaces
  (r3.1,
   e0 ++ r1.2 ++ r2.2 ++ r3.2 ++ [Effect.wl_list_remove_listener, Effect.xcb_disconnect])

/-! ## Atom bootstrap -/

/-- What xcb_intern_atom_reply hands back for one cookie: a reply carrying the
atom, a protocol error carrying its code, or neither (the connection failed) -/
inductive intern_atom_result where
  | reply (atom : Nat)
  | error (error_code : Nat)
  | neither
  deriving DecidableEq, Repr

/-- The second loop of xcb_get_resources from slot i on: store the atom of a
reply, skip a missing reply, return at the first error -/
def xcb_get_resources_loop (atoms : List Nat) (i : Nat) :
    List intern_atom_result → List Nat
  | [] => atoms
  | intern_atom_result.reply atom :: rest =>
    xcb_get_resources_loop (atoms.set i atom) (i + 1) rest
  | intern_atom_result.neither :: rest => xcb_get_resources_loop atoms (i + 1) rest
  | intern_atom_result.error _ :: _ => atoms

/-- The function xcb_get_resources, given what the server answers to the
ATOM_LAST requests, in slot order -/
def xcb_get_resources (xwm : wlr_xwm) (replies : List intern_atom_result) : wlr_xwm :=
  { xwm with atoms := xcb_get_resources_loop xwm.atoms 0 (replies.take ATOM_LAST) }

/-! ## Runs -/

/-- The empty registry: no window is tracked -/
def empty_registry (atoms : List Nat) (client : Nat) : wlr_xwm :=
  { atoms := atoms, client := client, new_surfaces := [], unpaired_surfaces := [],
    displayable_surfaces := [] }

/-- The state xwm_create builds before any request is answered: calloc zeroes
the atoms, the three lists are empty -/
def xwm_create (client : Nat) : wlr_xwm :=
  empty_registry (List.replicate ATOM_LAST 0) client

/-- One thing that happens to the window manager: an X11 event reaches the
switch of x11_event_handler, or the compositor signals a new surface -/
inductive Input where
  | x11 (env : Env) (event : xcb_generic_event_t)
  | create_surface (surface : wlr_surface)

/-- One step of a run -/
def step (xwm : wlr_xwm) : Input → wlr_xwm × List Effect
  | .x11 env event => handle_event xwm env event
  | .create_surface surface => create_surface_handler xwm surface

/-- A run: the final state and everything emitted, in order -/
def run (xwm : wlr_xwm) : List Input → wlr_xwm × List Effect
  | [] => (xwm, [])
  | i :: rest =>
    let r := step xwm i
    let r2 := run r.1 rest
    (r2.1, r.2 ++ r2.2)

/-- The window ids of all tracked nodes: displayable, then unpaired, then new -/
def window_ids (xwm : wlr_xwm) : List Nat :=
  (xwm.displayable_surfaces ++ xwm.unpaired_surfaces ++ xwm.new_surfaces).map
    (fun surface => surface.window_id)

/-- A CreateNotify event -/
def create_notify (window : Nat) (x y : Int) (width height : Nat)
    (override_redirect : Bool) : xcb_generic_event_t :=
  { response_type := XCB_CREATE_NOTIFY, window := window, x := x, y := y, width := width,
    height := height, override_redirect := override_redirect, type := 0, data32 := [] }

/-- An event that only names a window (DestroyNotify, UnmapNotify, MapRequest) -/
def window_event (response_type window : Nat) : xcb_generic_event_t :=
  { response_type := response_type, window := window, x := 0, y := 0, width := 0,
    height := 0, override_redirect := false, type := 0, data32 := [] }

/-- A MapNotify event -/
def map_notify (window : Nat) (override_redirect : Bool) : xcb_generic_event_t :=
  { response_type := XCB_MAP_NOTIFY, window := window, x := 0, y := 0, width := 0,
    height := 0, override_redirect := override_redirect, type := 0, data32 := [] }

/-- A ConfigureRequest event -/
def configure_request (window : Nat) (x y : Int) (width height : Nat) :
    xcb_generic_event_t :=
  { response_type := XCB_CONFIGURE_REQUEST, window := window, x := x, y := y,
    width := width, height := height, override_redirect := false, type := 0,
    data32 := [] }

/-- A 32-bit ClientMessage event of the given type with data32[0] set -/
def client_message (window type data0 : Nat) : xcb_generic_event_t :=
  { response_type := XCB_CLIENT_MESSAGE, window := window, x := 0, y := 0, width := 0,
    height := 0, override_redirect := false, type := type,
    data32 := [data0, 0, 0, 0, 0] }

/-- An environment in which calloc succeeds, checked requests succeed, and the
Xwayland client owns exactly the listed surfaces -/
def env_with (surfaces : List wlr_surface) : Env :=
  { calloc := true,
    wl_client_get_object := fun client id =>
      (surfaces.find? (fun s => s.resource.id == id && s.resource.client == client)).map
        (fun s => s.resource),
    wl_resource_get_user_data := fun resource => { resource := resource },
    xcb_request_check := fun _ => none }

/-! ## Definitions used to state the claims -/

/-- The bound surface of every tracked node is set exactly when the node is linked
into displayable_surfaces -/
def surfaces_bound (xwm : wlr_xwm) : Prop :=
  ∀ (l : surface_list) (s : wlr_xwayland_surface), s ∈ xwm.get_list l →
    (s.surface ≠ none ↔ l = surface_list.displayable)

/-- No window id is tracked twice -/
def unique_ids (xwm : wlr_xwm) : Prop := (window_ids xwm).Nodup

/-- Whether the input is a CreateNotify for a window that is already tracked -/
def fresh_create (xwm : wlr_xwm) : Input → Bool
  | .x11 _ event =>
    !(event.response_type &&& XCB_EVENT_RESPONSE_TYPE_MASK == XCB_CREATE_NOTIFY) ||
      (lookup_surface_any xwm event.window).isNone
  | .create_surface _ => true

/-- Every CreateNotify of the run names a window that is not tracked at the time
it is handled -/
def creates_fresh (xwm : wlr_xwm) : List Input → Bool
  | [] => true
  | i :: rest => fresh_create xwm i && creates_fresh (step xwm i).1 rest

/-- A surface object of the given client with the given object id -/
def surface_of (client id : Nat) : wlr_surface := { resource := { id := id, client := client } }

/-- The atoms of a window manager whose seven names resolved to 100 .. 106 -/
def sample_atoms : List Nat := [100, 101, 102, 103, 104, 105, 106]

/-- A run in which window 7 is paired with surface 42 and window 8 is only created -/
def sample_inputs : List Input :=
  [Input.x11 (env_with []) (create_notify 7 0 0 100 50 false),
   Input.x11 (env_with []) (client_message 7 100 42),
   Input.create_surface (surface_of 1 42),
   Input.x11 (env_with []) (create_notify 8 0 0 10 10 true)]

/-- A state with window 1 unpaired and waiting for surface 42, and window 2 new -/
def two_windows : wlr_xwm :=
  (run (empty_registry sample_atoms 1)
    [Input.x11 (env_with []) (create_notify 1 0 0 100 50 false),
     Input.x11 (env_with []) (client_message 1 100 42),
     Input.x11 (env_with []) (create_notify 2 0 0 100 50 false)]).1

/-- A state with window 7 displayable, bound to surface 42, at 0,0 and 100x50 -/
def window_7_displayable : wlr_xwm :=
  (run (empty_registry sample_atoms 1)
    [Input.x11 (env_with []) (create_notify 7 0 0 100 50 false),
     Input.x11 (env_with [surface_of 1 42]) (client_message 7 100 42)]).1

/-- The node wlr_xwayland_surface_create links for a CreateNotify event -/
def created_node (ev : xcb_generic_event_t) : wlr_xwayland_surface :=
  { window_id := ev.window, surface_id := 0, surface := none, x := ev.x, y := ev.y,
    width := ev.width, height := ev.height, override_redirect := ev.override_redirect }

/-- The INT16 the X server reads from a 32-bit slot of a value list: the low
sixteen bits, signed -/
def wire_int16 (v : Nat) : Int :=
  if v % 65536 < 32768 then (v % 65536 : Nat) else ((v % 65536 : Nat) : Int) - 65536

/-- The node handle_map_notify links for a window it does not track -/
def synthesized_node (ev : xcb_generic_event_t) : wlr_xwayland_surface :=
  { window_id := ev.window, surface_id := 0, surface := none, x := 0, y := 0,
    width := 1, height := 1, override_redirect := ev.override_redirect }

/-- Replies in which the first request fails and the other six succeed -/
def first_reply_fails : List intern_atom_result :=
  [intern_atom_result.error 3, intern_atom_result.reply 101, intern_atom_result.reply 102,
   intern_atom_result.reply 103, intern_atom_result.reply 104,
   intern_atom_result.reply 105, intern_atom_result.reply 106]

/-- The payloads of the new_surface signals of a trace, in order -/
def new_surface_signals : List Effect → List wlr_xwayland_surface
  | [] => []
  | Effect.signal_new_surface s :: rest => s :: new_surface_signals rest
  | _ :: rest => new_surface_signals rest

/-- The payloads of the destroy signals of a trace, in order -/
def destroy_signals : List Effect → List wlr_xwayland_surface
  | [] => []
  | Effect.signal_destroy s :: rest => s :: destroy_signals rest
  | _ :: rest => destroy_signals rest

/-- Reading a trace from the left with the window ids that were announced and not
destroyed since: no new_surface signal names a window id of that list -/
def announced_once (live : List Nat) : List Effect → Bool
  | [] => true
  | Effect.signal_new_surface s :: rest =>
    !(live.contains s.window_id) && announced_once (s.window_id :: live) rest
  | Effect.signal_destroy s :: rest =>
    announced_once (live.filter (fun w => w != s.window_id)) rest
  | _ :: rest => announced_once live rest

/-- The state reached by handling the events of a queue from the left -/
def fold_events (xwm : wlr_xwm) (queue : List (Env × xcb_generic_event_t)) : wlr_xwm :=
  queue.foldl (fun st p => (handle_event st p.1 p.2).1) xwm

/-- The effects of handling the events of a queue from the left, in order -/
def fold_effects (xwm : wlr_xwm) : List (Env × xcb_generic_event_t) → List Effect
  | [] => []
  | p :: queue => (handle_event xwm p.1 p.2).2 ++ fold_effects (handle_event xwm p.1 p.2).1 queue

/-- The event with its response_type replaced -/
def with_response_type (ev : xcb_generic_event_t) (r : Nat) : xcb_generic_event_t :=
  { ev with response_type := r }

/-- Whether the low seven bits of a response_type are one of the eight opcodes of
the switch -/
def handled_opcode (r : Nat) : Bool :=
  [XCB_CREATE_NOTIFY, XCB_DESTROY_NOTIFY, XCB_CONFIGURE_REQUEST, XCB_MAP_REQUEST,
   XCB_MAP_NOTIFY, XCB_UNMAP_NOTIFY, XCB_PROPERTY_NOTIFY, XCB_CLIENT_MESSAGE].contains
    (r &&& XCB_EVENT_RESPONSE_TYPE_MASK)

/-- An environment in which the server rejects every checked request with error
code 3 (BadWindow) -/
def env_rejecting : Env :=
  { calloc := true, wl_client_get_object := fun _ _ => none,
    wl_resource_get_user_data := fun resource => { resource := resource },
    xcb_request_check := fun _ => some 3 }

/-- A state with windows 1 and 2 unpaired and both waiting for surface 42, window 2
ahead of window 1 in the list, and window 3 new -/
def two_waiting : wlr_xwm :=
  (run (empty_registry sample_atoms 1)
    [Input.x11 (env_with []) (create_notify 1 0 0 100 50 false),
     Input.x11 (env_with []) (client_message 1 100 42),
     Input.x11 (env_with []) (create_notify 2 0 0 100 50 false),
     Input.x11 (env_with []) (client_message 2 100 42),
     Input.x11 (env_with []) (create_notify 3 0 0 100 50 false)]).1

/-- A step that emits no signal and keeps the window ids of displayable_surfaces -/
def quiet_step (xwm : wlr_xwm) (r : wlr_xwm × List Effect) : Prop :=
  (∀ live rest, announced_once live (r.2 ++ rest) = announced_once live rest) ∧
  new_surface_signals r.2 = [] ∧
  r.1.displayable_surfaces.map (fun s => s.window_id) =
    xwm.displayable_surfaces.map (fun s => s.window_id)

/-- A step that unlinks one node and emits its destroy signal -/
def destroy_step (xwm : wlr_xwm) (r : wlr_xwm × List Effect) : Prop :=
  ∃ l s, r.2 = [Effect.signal_destroy s] ∧
    r.1 = xwm.set_list l (wl_list_remove (xwm.get_list l) (by_window s.window_id))

/-- A step that moves one node from new_surfaces or unpaired_surfaces to the head
of displayable_surfaces with a surface bound, and emits new_surface for it -/
def announce_step (xwm : wlr_xwm) (r : wlr_xwm × List Effect) : Prop :=
  ∃ l e sid surface tail, l ≠ surface_list.displayable ∧ e ∈ xwm.get_list l ∧
    r.2 = Effect.signal_new_surface { e with surface_id := sid, surface := some surface } ::
      tail ∧
    (tail = [] ∨ tail = [Effect.xcb_flush]) ∧
    r.1.displayable_surfaces =
      { e with surface_id := sid, surface := some surface } :: xwm.displayable_surfaces ∧
    (r.1.get_list l).length + 1 = (xwm.get_list l).length

/-! ## Nodes with allocation serials -/

/-- A node together with the serial number of the calloc that made it. The code
never sees the serial; it stands for the identity of the node, which a freed and
reused address cannot give. -/
structure tracked_node where
  serial : Nat
  node : wlr_xwayland_surface
  deriving DecidableEq, Repr

/-- The state of the window manager with every node carrying its serial, and the
number of nodes allocated so far -/
structure tracked_xwm where
  atoms : List Nat
  client : Nat
  new_surfaces : List tracked_node
  unpaired_surfaces : List tracked_node
  displayable_surfaces : List tracked_node
  allocations : Nat
  deriving DecidableEq, Repr

/-- An effect together with the serial of the node it carries, for the two signals -/
abbrev tracked_effect := Option Nat × Effect

/-- The nodes of a list without their serials -/
def forget_serials (list : List tracked_node) : List wlr_xwayland_surface :=
  list.map (fun n => n.node)

/-- The state without the serials: the struct wlr_xwm the code works on -/
def tracked_xwm.forget (t : tracked_xwm) : wlr_xwm :=
  { atoms := t.atoms, client := t.client, new_surfaces := forget_serials t.new_surfaces,
    unpaired_surfaces := forget_serials t.unpaired_surfaces,
    displayable_surfaces := forget_serials t.displayable_surfaces }

/-- The effects without the serials -/
def forget_effect_serials (out : List tracked_effect) : List Effect :=
  out.map (fun e => e.2)

/-- The list a node is linked into -/
def tracked_xwm.get_list (t : tracked_xwm) : surface_list → List tracked_node
  | .displayable => t.displayable_surfaces
  | .unpaired => t.unpaired_surfaces
  | .new => t.new_surfaces

/-- Replace one of the three lists -/
def tracked_xwm.set_list (t : tracked_xwm) (l : surface_list) (v : List tracked_node) :
    tracked_xwm :=
  match l with
  | .displayable => { t with displayable_surfaces := v }
  | .unpaired => { t with unpaired_surfaces := v }
  | .new => { t with new_surfaces := v }

/-- wl_list_remove of the first node passing test, on nodes with serials -/
def tracked_remove (list : List tracked_node) (test : wlr_xwayland_surface → Bool) :
    List tracked_node :=
  list.eraseP (fun n => test n.node)

/-- A store through the pointer to the first node passing test, on nodes with
serials: the serial stays -/
def tracked_store (list : List tracked_node) (test : wlr_xwayland_surface → Bool)
    (f : wlr_xwayland_surface → wlr_xwayland_surface) : List tracked_node :=
  match list with
  | [] => []
  | n :: rest =>
    if test n.node then { n with node := f n.node } :: rest
    else n :: tracked_store rest test f

/-- The function lookup_surface on nodes with serials -/
def tracked_lookup_surface (list : List tracked_node) (window_id : Nat) :
    Option tracked_node :=
  list.find? (fun n => by_window window_id n.node)

/-- The function lookup_surface_any on nodes with serials -/
def tracked_lookup_surface_any (t : tracked_xwm) (window_id : Nat) :
    Option (surface_list × tracked_node) :=
  match tracked_lookup_surface t.displayable_surfaces window_id with
  | some n => some (.displayable, n)
  | none =>
    match tracked_lookup_surface t.unpaired_surfaces window_id with
    | some n => some (.unpaired, n)
    | none =>
      match tracked_lookup_surface t.new_surfaces window_id with
      | some n => some (.new, n)
      | none => none

/-- The function wlr_xwayland_surface_create: the new node gets the next serial -/
def tracked_surface_create (t : tracked_xwm) (env : Env) (window_id : Nat) (x y : Int)
    (width height : Nat) (override_redirect : Bool) : tracked_xwm :=
  if env.calloc then
    let surface : wlr_xwayland_surface :=
      { window_id := window_id, surface_id := 0, surface := none, x := x, y := y,
        width := width, height := height, override_redirect := override_redirect }
    { t with
      new_surfaces := { serial := t.allocations, node := surface } :: t.new_surfaces
      allocations := t.allocations + 1 }
  else
    t

/-- The function wlr_xwayland_surface_destroy on a node with its serial -/
def tracked_surface_destroy (t : tracked_xwm) (list : surface_list)
    (test : wlr_xwayland_surface → Bool) (n : tracked_node) :
    tracked_xwm × List tracked_effect :=
  (t.set_list list (tracked_remove (t.get_list list) test),
   [(some n.serial, Effect.signal_destroy n.node)])

/-- The function map_shell_surface on a node with its serial -/
def tracked_map_shell_surface (t : tracked_xwm) (list : surface_list)
    (test : wlr_xwayland_surface → Bool) (n : tracked_node) (surface : wlr_surface) :
    tracked_xwm × List tracked_effect :=
  let n : tracked_node := { n with node := { n.node with surface := some surface } }
  let t := t.set_list list (tracked_remove (t.get_list list) test)
  let t := { t with displayable_surfaces := n :: t.displayable_surfaces }
  (t, [(some n.serial, Effect.signal_new_surface n.node)])

/-- The function handle_client_message on nodes with serials -/
def tracked_handle_client_message (t : tracked_xwm) (env : Env)
    (ev : xcb_generic_event_t) : tracked_xwm × List tracked_effect :=
  if ev.type = t.forget.atom WL_SURFACE_ID then
    match tracked_lookup_surface t.new_surfaces ev.window with
    | none => (t, [])
    | some n =>
      let n : tracked_node := { n with node := { n.node with surface_id := ev.data32_at 0 } }
      match env.wl_client_get_object t.client n.node.surface_id with
      | some resource =>
        tracked_map_shell_surface t .new (by_window ev.window) n
          (env.wl_resource_get_user_data resource)
      | none =>
        let t := { t with
          new_surfaces := tracked_remove t.new_surfaces (by_window ev.window) }
        ({ t with unpaired_surfaces := n :: t.unpaired_surfaces }, [])
  else
    (t, [])

/-- The switch of x11_event_handler on nodes with serials, the eight handlers
written in place: CreateNotify and MapNotify on an untracked window allocate,
DestroyNotify and UnmapNotify unlink, ConfigureRequest and MapNotify on a tracked
window store through the node and keep its serial, the client message moves a
node, MapRequest and PropertyNotify touch no node. -/
def tracked_handle_event (t : tracked_xwm) (env : Env) (event : xcb_generic_event_t) :
    tracked_xwm × List tracked_effect :=
  let op := event.response_type &&& XCB_EVENT_RESPONSE_TYPE_MASK
  if op = XCB_CREATE_NOTIFY then
    (tracked_surface_create t env event.window event.x event.y event.width event.height
      event.override_redirect, [])
  else if op = XCB_DESTROY_NOTIFY then
    match tracked_lookup_surface_any t event.window with
    | none => (t, [])
    | some (list, n) => tracked_surface_destroy t list (by_window event.window) n
  else if op = XCB_CONFIGURE_REQUEST then
    match tracked_lookup_surface_any t event.window with
    | none => (t, [])
    | some (list, _) =>
      (t.set_list list (tracked_store (t.get_list list) (by_window event.window)
        (fun surface =>
          { surface with x := event.x, y := event.y, width := event.width,
                         height := event.height })),
       [(none, Effect.xcb_configure_window event.window
          (XCB_CONFIG_WINDOW_X ||| XCB_CONFIG_WINDOW_Y ||| XCB_CONFIG_WINDOW_WIDTH |||
            XCB_CONFIG_WINDOW_HEIGHT ||| XCB_CONFIG_WINDOW_BORDER_WIDTH)
          [to_uint32 event.x, to_uint32 event.y, to_uint32 event.width,
           to_uint32 event.height, 0])])
  else if op = XCB_MAP_REQUEST then
    (t,
     [(none, Effect.xcb_change_window_attributes_checked event.window XCB_CW_EVENT_MASK
        [XCB_EVENT_MASK_FOCUS_CHANGE ||| XCB_EVENT_MASK_PROPERTY_CHANGE]),
      (none, Effect.xcb_map_window_checked event.window)])
  else if op = XCB_MAP_NOTIFY then
    match tracked_lookup_surface_any t event.window with
    | some (list, _) =>
      (t.set_list list (tracked_store (t.get_list list) (by_window event.window)
        (fun surface => { surface with override_redirect := event.override_redirect })), [])
    | none =>
      (tracked_surface_create t env event.window 0 0 1 1 event.override_redirect, [])
  else if op = XCB_UNMAP_NOTIFY then
    match tracked_lookup_surface_any t event.window with
    | none => (t, [])
    | some (list, n) => tracked_surface_destroy t list (by_window event.window) n
  else if op = XCB_PROPERTY_NOTIFY then (t, [])
  else if op = XCB_CLIENT_MESSAGE then tracked_handle_client_message t env event
  else (t, [])

/-- The function create_surface_handler on nodes with serials -/
def tracked_create_surface_handler (t : tracked_xwm) (surface : wlr_surface) :
    tracked_xwm × List tracked_effect :=
  if surface.resource.client ≠ t.client then (t, [])
  else
    let surface_id := surface.resource.id
    match t.unpaired_surfaces.find? (fun n => by_surface_id surface_id n.node) with
    | some n =>
      let r := tracked_map_shell_surface t .unpaired (by_surface_id surface_id) n surface
      (r.1, r.2 ++ [(none, Effect.xcb_flush)])
    | none => (t, [])

/-- One step of a run on nodes with serials -/
def tracked_step (t : tracked_xwm) : Input → tracked_xwm × List tracked_effect
  | .x11 env event => tracked_handle_event t env event
  | .create_surface surface => tracked_create_surface_handler t surface

/-- A run on nodes with serials -/
def tracked_run (t : tracked_xwm) : List Input → tracked_xwm × List tracked_effect
  | [] => (t, [])
  | i :: rest =>
    let r := tracked_step t i
    let r2 := tracked_run r.1 rest
    (r2.1, r.2 ++ r2.2)

/-- The empty registry before any allocation -/
def tracked_empty (atoms : List Nat) (client : Nat) : tracked_xwm :=
  { atoms := atoms, client := client, new_surfaces := [], unpaired_surfaces := [],
    displayable_surfaces := [], allocations := 0 }

/-- The serials of the nodes announced by the new_surface signals of a trace, in
order -/
def announced_serials : List tracked_effect → List Nat
  | [] => []
  | (some k, Effect.signal_new_surface _) :: rest => k :: announced_serials rest
  | _ :: rest => announced_serials rest

/-- Whether a new_surface signal of the trace comes without the serial of its node -/
def serial_missing : tracked_effect → Bool
  | (none, Effect.signal_new_surface _) => true
  | _ => false

/-- The serials of all tracked nodes: displayable, then unpaired, then new -/
def tracked_serials (t : tracked_xwm) : List Nat :=
  (t.displayable_surfaces ++ t.unpaired_surfaces ++ t.new_surfaces).map (fun n => n.serial)

/-- How many nodes of a list carry serial k -/
def serial_count (list : List tracked_node) (k : Nat) : Nat :=
  List.count k (list.map (fun n => n.serial))

/-- What holds of the serials in every state of a run, ann being the serials
announced so far: a serial names at most one linked node, is announced at most
once, names no node of unpaired_surfaces or new_surfaces once announced, and is
below the allocation counter -/
def tracked_inv (t : tracked_xwm) (ann : List Nat) : Prop :=
  ∀ k,
    serial_count t.displayable_surfaces k + serial_count t.unpaired_surfaces k +
        serial_count t.new_surfaces k ≤ 1 ∧
    List.count k ann ≤ 1 ∧
    (0 < List.count k ann →
      serial_count t.unpaired_surfaces k + serial_count t.new_surfaces k = 0) ∧
    (t.allocations ≤ k →
      serial_count t.displayable_surfaces k + serial_count t.unpaired_surfaces k +
          serial_count t.new_surfaces k = 0 ∧
        List.count k ann = 0)

/-- A run with two CreateNotify for window 7, so that two nodes carry that id, and
two WL_SURFACE_ID messages for window 7 naming the existing surfaces 42 and 43 -/
def duplicate_id_inputs : List Input :=
  [Input.x11 (env_with []) (create_notify 7 0 0 100 50 false),
   Input.x11 (env_with []) (create_notify 7 0 0 100 50 false),
   Input.x11 (env_with [surface_of 1 42]) (client_message 7 100 42),
   Input.x11 (env_with [surface_of 1 43]) (client_message 7 100 43)]

/-! ## Lemmas -/

theorem mem_wl_list_remove {list : List wlr_xwayland_surface}
    {test : wlr_xwayland_surface → Bool} {s : wlr_xwayland_surface}
    (h : s ∈ wl_list_remove list test) : s ∈ list :=
  List.mem_of_mem_eraseP h

theorem mem_store {list : List wlr_xwayland_surface} {test : wlr_xwayland_surface → Bool}
    {f : wlr_xwayland_surface → wlr_xwayland_surface} {s : wlr_xwayland_surface}
    (h : s ∈ store list test f) : s ∈ list ∨ ∃ t ∈ list, s = f t := by
  induction list with
  | nil => simp [store] at h
  | cons a rest ih =>
    unfold store at h
    split at h
    · rcases List.mem_cons.1 h with h1 | h1
      · exact Or.inr ⟨a, List.mem_cons_self _ _, h1⟩
      · exact Or.inl (List.mem_cons_of_mem _ h1)
    · rcases List.mem_cons.1 h with h1 | h1
      · exact Or.inl (h1 ▸ List.mem_cons_self _ _)
      · rcases ih h1 with h2 | ⟨t, ht, h2⟩
        · exact Or.inl (List.mem_cons_of_mem _ h2)
        · exact Or.inr ⟨t, List.mem_cons_of_mem _ ht, h2⟩

theorem map_store_window_id (list : List wlr_xwayland_surface)
    (test : wlr_xwayland_surface → Bool)
    (f : wlr_xwayland_surface → wlr_xwayland_surface)
    (hf : ∀ s, (f s).window_id = s.window_id) :
    (store list test f).map (fun s => s.window_id) = list.map (fun s => s.window_id) := by
  induction list with
  | nil => simp [store]
  | cons a rest ih =>
    unfold store
    split
    · simp [hf]
    · simp [ih]

theorem lookup_surface_some {list : List wlr_xwayland_surface} {w : Nat}
    {s : wlr_xwayland_surface} (h : lookup_surface list w = some s) :
    s ∈ list ∧ s.window_id = w := by
  unfold lookup_surface at h
  refine ⟨List.mem_of_find?_eq_some h, ?_⟩
  have := List.find?_some h
  simpa [by_window] using this

theorem lookup_surface_none {list : List wlr_xwayland_surface} {w : Nat} :
    lookup_surface list w = none ↔ w ∉ list.map (fun s => s.window_id) := by
  unfold lookup_surface
  rw [List.find?_eq_none]
  simp [by_window]

theorem lookup_surface_any_some {xwm : wlr_xwm} {w : Nat} {l : surface_list}
    {s : wlr_xwayland_surface} (h : lookup_surface_any xwm w = some (l, s)) :
    lookup_surface (xwm.get_list l) w = some s := by
  unfold lookup_surface_any at h
  split at h
  · cases h; assumption
  · split at h
    · cases h; assumption
    · split at h
      · cases h; assumption
      · cases h

theorem lookup_surface_any_none {xwm : wlr_xwm} {w : Nat} :
    lookup_surface_any xwm w = none ↔ w ∉ window_ids xwm := by
  unfold lookup_surface_any window_ids
  simp only [List.map_append, List.mem_append, not_or]
  constructor
  · intro h
    split at h
    · cases h
    · split at h
      · cases h
      · split at h
        · cases h
        · exact ⟨⟨lookup_surface_none.1 ‹_›, lookup_surface_none.1 ‹_›⟩,
            lookup_surface_none.1 ‹_›⟩
  · rintro ⟨⟨h1, h2⟩, h3⟩
    rw [lookup_surface_none.2 h1, lookup_surface_none.2 h2, lookup_surface_none.2 h3]

theorem perm_wl_list_remove {list : List wlr_xwayland_surface}
    {test : wlr_xwayland_surface → Bool} {s : wlr_xwayland_surface}
    (h : list.find? test = some s) : list.Perm (s :: wl_list_remove list test) := by
  induction list with
  | nil => simp at h
  | cons a rest ih =>
    unfold wl_list_remove
    by_cases ha : test a
    · simp [List.find?_cons, ha] at h
      subst h
      simp [List.eraseP_cons, ha]
    · simp [List.find?_cons, ha] at h
      simp only [List.eraseP_cons, ha, Bool.false_eq_true, ↓reduceIte]
      exact ((ih h).cons a).trans (List.Perm.swap _ _ _)

theorem get_list_set_list (xwm : wlr_xwm) (l l2 : surface_list)
    (v : List wlr_xwayland_surface) :
    (xwm.set_list l v).get_list l2 = if l2 = l then v else xwm.get_list l2 := by
  cases l <;> cases l2 <;> rfl

theorem surfaces_bound_empty (atoms : List Nat) (client : Nat) :
    surfaces_bound (empty_registry atoms client) := by
  intro l s h
  cases l <;> simp [empty_registry, wlr_xwm.get_list] at h

theorem surfaces_bound_remove {xwm : wlr_xwm} (h : surfaces_bound xwm) (l : surface_list)
    (test : wlr_xwayland_surface → Bool) :
    surfaces_bound (xwm.set_list l (wl_list_remove (xwm.get_list l) test)) := by
  intro l2 s hs
  rw [get_list_set_list] at hs
  split at hs
  · subst_vars; exact h _ s (mem_wl_list_remove hs)
  · exact h l2 s hs

theorem surfaces_bound_store {xwm : wlr_xwm} (h : surfaces_bound xwm) (l : surface_list)
    (test : wlr_xwayland_surface → Bool)
    (f : wlr_xwayland_surface → wlr_xwayland_surface)
    (hf : ∀ s, (f s).surface = s.surface) :
    surfaces_bound (xwm.set_list l (store (xwm.get_list l) test f)) := by
  intro l2 s hs
  rw [get_list_set_list] at hs
  split at hs
  · subst_vars
    rcases mem_store hs with h1 | ⟨t, ht, rfl⟩
    · exact h _ s h1
    · rw [hf]; exact h _ t ht
  · exact h l2 s hs

theorem surfaces_bound_create {xwm : wlr_xwm} (h : surfaces_bound xwm) (env : Env)
    (w : Nat) (x y : Int) (width height : Nat) (o : Bool) :
    surfaces_bound (wlr_xwayland_surface_create xwm env w x y width height o).1 := by
  unfold wlr_xwayland_surface_create
  split
  · intro l s hs
    cases l
    · exact h .displayable s hs
    · exact h .unpaired s hs
    · simp only [wlr_xwm.get_list, wl_list_insert, List.mem_cons] at hs
      rcases hs with rfl | hs
      · simp
      · exact h .new s hs
  · exact h

theorem surfaces_bound_map_shell_surface {xwm : wlr_xwm} (h : surfaces_bound xwm)
    (l : surface_list) (test : wlr_xwayland_surface → Bool) (s : wlr_xwayland_surface)
    (surface : wlr_surface) :
    surfaces_bound (map_shell_surface xwm l test s surface).1 := by
  have h1 := surfaces_bound_remove h l test
  unfold map_shell_surface
  intro l2 t ht
  cases l2
  · simp only [wlr_xwm.get_list, wl_list_insert, List.mem_cons] at ht
    rcases ht with rfl | ht
    · simp
    · exact h1 .displayable t ht
  · exact h1 .unpaired t ht
  · exact h1 .new t ht

theorem surfaces_bound_handle_client_message {xwm : wlr_xwm} (h : surfaces_bound xwm)
    (env : Env) (ev : xcb_generic_event_t) :
    surfaces_bound (handle_client_message xwm env ev).1 := by
  unfold handle_client_message
  split
  · split
    · exact h
    · rename_i s hs
      dsimp only
      split
      · exact surfaces_bound_map_shell_surface h _ _ _ _
      · have h1 := surfaces_bound_remove h .new (by_window ev.window)
        intro l2 t ht
        cases l2
        · exact h1 .displayable t ht
        · simp only [wlr_xwm.get_list, wl_list_insert, List.mem_cons] at ht
          rcases ht with rfl | ht
          · have := (h .new s (lookup_surface_some hs).1)
            simpa using this
          · exact h1 .unpaired t ht
        · exact h1 .new t ht
  · exact h

theorem surfaces_bound_handle_event {xwm : wlr_xwm} (h : surfaces_bound xwm)
    (env : Env) (ev : xcb_generic_event_t) :
    surfaces_bound (handle_event xwm env ev).1 := by
  unfold handle_event
  dsimp only
  split_ifs
  · exact surfaces_bound_create h _ _ _ _ _ _ _
  · unfold handle_destroy_notify
    split
    · exact h
    · exact surfaces_bound_remove h _ _
  · unfold handle_configure_request
    split
    · exact h
    · exact surfaces_bound_store h _ _ _ (fun _ => rfl)
  · exact h
  · unfold handle_map_notify
    split
    · exact surfaces_bound_store h _ _ _ (fun _ => rfl)
    · exact surfaces_bound_create h _ _ _ _ _ _ _
  · unfold handle_unmap_notify
    split
    · exact h
    · exact surfaces_bound_remove h _ _
  · exact h
  · exact surfaces_bound_handle_client_message h env ev
  · exact h

theorem surfaces_bound_create_surface_handler {xwm : wlr_xwm} (h : surfaces_bound xwm)
    (surface : wlr_surface) :
    surfaces_bound (create_surface_handler xwm surface).1 := by
  unfold create_surface_handler
  split
  · exact h
  · dsimp only
    split
    · exact surfaces_bound_map_shell_surface h _ _ _ _
    · exact h

theorem surfaces_bound_step {xwm : wlr_xwm} (h : surfaces_bound xwm) (i : Input) :
    surfaces_bound (step xwm i).1 := by
  cases i with
  | x11 env event => exact surfaces_bound_handle_event h env event
  | create_surface surface => exact surfaces_bound_create_surface_handler h surface

theorem surfaces_bound_run {xwm : wlr_xwm} (h : surfaces_bound xwm) (inputs : List Input) :
    surfaces_bound (run xwm inputs).1 := by
  induction inputs generalizing xwm with
  | nil => exact h
  | cons i rest ih => exact ih (surfaces_bound_step h i)

theorem unique_ids_remove {xwm : wlr_xwm} (h : unique_ids xwm) (l : surface_list)
    (test : wlr_xwayland_surface → Bool) :
    unique_ids (xwm.set_list l (wl_list_remove (xwm.get_list l) test)) := by
  unfold unique_ids window_ids at *
  have hs : ∀ list : List wlr_xwayland_surface, (wl_list_remove list test).Sublist list :=
    fun list => List.eraseP_sublist list
  refine List.Nodup.sublist (List.Sublist.map _ ?_) h
  cases l
  · exact ((hs _).append (List.Sublist.refl _)).append (List.Sublist.refl _)
  · exact ((List.Sublist.refl _).append (hs _)).append (List.Sublist.refl _)
  · exact ((List.Sublist.refl _).append (List.Sublist.refl _)).append (hs _)

theorem window_ids_store (xwm : wlr_xwm) (l : surface_list)
    (test : wlr_xwayland_surface → Bool)
    (f : wlr_xwayland_surface → wlr_xwayland_surface)
    (hf : ∀ s, (f s).window_id = s.window_id) :
    window_ids (xwm.set_list l (store (xwm.get_list l) test f)) = window_ids xwm := by
  cases l <;>
    simp [window_ids, wlr_xwm.set_list, wlr_xwm.get_list, map_store_window_id _ _ _ hf]

theorem unique_ids_create {xwm : wlr_xwm} (h : unique_ids xwm) (env : Env)
    (w : Nat) (x y : Int) (width height : Nat) (o : Bool)
    (hw : lookup_surface_any xwm w = none) :
    unique_ids (wlr_xwayland_surface_create xwm env w x y width height o).1 := by
  unfold wlr_xwayland_surface_create
  split
  · have hw2 := lookup_surface_any_none.1 hw
    unfold unique_ids window_ids at *
    simp only [wl_list_insert, List.map_append, List.map_cons]
    simp only [List.map_append] at h hw2
    exact (List.perm_middle.nodup_iff).2 (List.nodup_cons.2 ⟨hw2, h⟩)
  · exact h

/-- Moving a node between lists permutes the window ids -/
theorem count_window_ids_move {list : List wlr_xwayland_surface}
    {test : wlr_xwayland_surface → Bool} {s0 : wlr_xwayland_surface}
    (h : list.find? test = some s0) (a : Nat) :
    List.count a (list.map (fun s => s.window_id)) =
      List.count a ((wl_list_remove list test).map (fun s => s.window_id)) +
        (if s0.window_id = a then 1 else 0) := by
  have hp := ((perm_wl_list_remove h).map (fun s => s.window_id)).count_eq a
  rw [hp, List.map_cons, List.count_cons]
  simp

theorem unique_ids_map_shell_surface {xwm : wlr_xwm} (h : unique_ids xwm)
    (l : surface_list) (test : wlr_xwayland_surface → Bool)
    (s s0 : wlr_xwayland_surface) (surface : wlr_surface)
    (hf : (xwm.get_list l).find? test = some s0) (hw : s.window_id = s0.window_id) :
    unique_ids (map_shell_surface xwm l test s surface).1 := by
  unfold unique_ids window_ids at *
  rw [List.nodup_iff_count_le_one] at *
  intro a
  have h1 := h a
  have h2 := count_window_ids_move hf a
  cases l <;>
    simp only [map_shell_surface, wlr_xwm.set_list, wlr_xwm.get_list, wl_list_insert,
      List.map_append, List.map_cons, List.count_append, List.count_cons, hw,
      beq_iff_eq] at h1 h2 ⊢ <;>
    omega

theorem unique_ids_handle_client_message {xwm : wlr_xwm} (h : unique_ids xwm)
    (env : Env) (ev : xcb_generic_event_t) :
    unique_ids (handle_client_message xwm env ev).1 := by
  unfold handle_client_message
  split
  · split
    · exact h
    · rename_i s hs
      dsimp only
      split
      · exact unique_ids_map_shell_surface h _ _ _ s _ hs rfl
      · unfold unique_ids window_ids at *
        rw [List.nodup_iff_count_le_one] at *
        intro a
        have h1 := h a
        have h2 := count_window_ids_move hs a
        simp only [wl_list_insert, List.map_append, List.map_cons, List.count_append,
          List.count_cons, beq_iff_eq] at h1 h2 ⊢
        omega
  · exact h

theorem unique_ids_create_surface_handler {xwm : wlr_xwm} (h : unique_ids xwm)
    (surface : wlr_surface) :
    unique_ids (create_surface_handler xwm surface).1 := by
  unfold create_surface_handler
  split
  · exact h
  · dsimp only
    split
    · rename_i s hs
      exact unique_ids_map_shell_surface h _ _ _ s _ hs rfl
    · exact h

/-- Every handler other than handle_create_notify keeps the window ids distinct -/
theorem unique_ids_handle_event {xwm : wlr_xwm} (h : unique_ids xwm)
    (env : Env) (ev : xcb_generic_event_t)
    (hc : ev.response_type &&& XCB_EVENT_RESPONSE_TYPE_MASK = XCB_CREATE_NOTIFY →
      lookup_surface_any xwm ev.window = none) :
    unique_ids (handle_event xwm env ev).1 := by
  unfold handle_event
  dsimp only
  split_ifs with c1
  · exact unique_ids_create h _ _ _ _ _ _ _ (hc c1)
  · unfold handle_destroy_notify
    split
    · exact h
    · exact unique_ids_remove h _ _
  · unfold handle_configure_request
    split
    · exact h
    · dsimp only
      unfold unique_ids
      rw [window_ids_store]
      · exact h
      · intro _; rfl
  · exact h
  · unfold handle_map_notify
    split
    · dsimp only
      unfold unique_ids
      rw [window_ids_store]
      · exact h
      · intro _; rfl
    · rename_i hn
      exact unique_ids_create h _ _ _ _ _ _ _ hn
  · unfold handle_unmap_notify
    split
    · exact h
    · exact unique_ids_remove h _ _
  · exact h
  · exact unique_ids_handle_client_message h env ev
  · exact h

theorem unique_ids_step {xwm : wlr_xwm} (h : unique_ids xwm) (i : Input)
    (hc : fresh_create xwm i = true) : unique_ids (step xwm i).1 := by
  cases i with
  | x11 env event =>
    refine unique_ids_handle_event h env event ?_
    intro c
    simpa [fresh_create, c] using hc
  | create_surface surface => exact unique_ids_create_surface_handler h surface

theorem unique_ids_run {xwm : wlr_xwm} (h : unique_ids xwm) (inputs : List Input)
    (hc : creates_fresh xwm inputs = true) : unique_ids (run xwm inputs).1 := by
  induction inputs generalizing xwm with
  | nil => exact h
  | cons i rest ih =>
    simp only [creates_fresh, Bool.and_eq_true] at hc
    exact ih (unique_ids_step h i hc.1) hc.2

/-- The first node passing a test splits its list; unlinking it and storing through
it act at that place -/
theorem first_node_split {list : List wlr_xwayland_surface}
    {test : wlr_xwayland_surface → Bool} {s : wlr_xwayland_surface}
    (h : list.find? test = some s)
    (f : wlr_xwayland_surface → wlr_xwayland_surface) :
    ∃ before after, list = before ++ s :: after ∧ (∀ t ∈ before, test t = false) ∧
      test s = true ∧ wl_list_remove list test = before ++ after ∧
      store list test f = before ++ f s :: after := by
  induction list with
  | nil => simp at h
  | cons a rest ih =>
    by_cases ha : test a
    · simp [List.find?_cons, ha] at h
      subst h
      exact ⟨[], rest, rfl, by simp, ha, by simp [wl_list_remove, List.eraseP_cons, ha],
        by simp [store, ha]⟩
    · simp [List.find?_cons, ha] at h
      obtain ⟨before, after, h1, h2, h3, h4, h5⟩ := ih h
      refine ⟨a :: before, after, by simp [h1], ?_, h3, ?_, ?_⟩
      · intro t ht
        rcases List.mem_cons.1 ht with rfl | ht
        · simpa using ha
        · exact h2 t ht
      · simp only [wl_list_remove] at h4
        simp [wl_list_remove, List.eraseP_cons, ha, h4]
      · simp [store, ha, h5]

theorem lookup_surface_any_set_list {xwm : wlr_xwm} {w : Nat} {l : surface_list}
    {s s2 : wlr_xwayland_surface} (h : lookup_surface_any xwm w = some (l, s))
    {v : List wlr_xwayland_surface} (hv : lookup_surface v w = some s2) :
    lookup_surface_any (xwm.set_list l v) w = some (l, s2) := by
  unfold lookup_surface_any at h
  split at h
  · cases h
    simp [lookup_surface_any, wlr_xwm.set_list, hv]
  · rename_i hd
    split at h
    · cases h
      simp [lookup_surface_any, wlr_xwm.set_list, hv, hd]
    · rename_i hu
      split at h
      · cases h
        simp [lookup_surface_any, wlr_xwm.set_list, hv, hd, hu]
      · cases h

theorem lookup_surface_store {list : List wlr_xwayland_surface} {w : Nat}
    {s : wlr_xwayland_surface} (h : lookup_surface list w = some s)
    (f : wlr_xwayland_surface → wlr_xwayland_surface)
    (hf : (f s).window_id = s.window_id) :
    lookup_surface (store list (by_window w) f) w = some (f s) := by
  unfold lookup_surface at *
  induction list with
  | nil => simp at h
  | cons a rest ih =>
    by_cases ha : by_window w a
    · simp [List.find?_cons, ha] at h
      subst h
      have : by_window w (f a) = true := by
        simp only [by_window, beq_iff_eq] at ha ⊢
        rw [hf, ha]
      simp [store, ha, List.find?_cons, this]
    · simp [List.find?_cons, ha] at h
      simp [store, ha, List.find?_cons, ih h]

theorem to_uint32_of_nat (n : Nat) (h : n < 4294967296) : to_uint32 n = n := by
  unfold to_uint32
  omega

theorem wire_int16_to_uint32 (i : Int) (h1 : -32768 ≤ i) (h2 : i < 32768) :
    wire_int16 (to_uint32 i) = i := by
  unfold wire_int16 to_uint32
  split <;> omega

theorem xcb_get_resources_loop_below (replies : List intern_atom_result) (atoms : List Nat)
    (k i : Nat) (h : i < k) :
    (xcb_get_resources_loop atoms k replies).getD i 0 = atoms.getD i 0 := by
  induction replies generalizing atoms k with
  | nil => rfl
  | cons r rest ih =>
    cases r with
    | reply a =>
      simp only [xcb_get_resources_loop]
      rw [ih _ _ (by omega)]
      simp only [List.getD_eq_getElem?_getD]
      rw [List.getElem?_set_ne (by omega)]
    | error c => rfl
    | neither =>
      simp only [xcb_get_resources_loop]
      exact ih _ _ (by omega)

theorem xcb_get_resources_loop_stored (replies : List intern_atom_result)
    (atoms : List Nat) (k j a : Nat)
    (hno : ∀ j2, j2 < j → ∀ c, replies[j2]? ≠ some (intern_atom_result.error c))
    (hr : replies[j]? = some (intern_atom_result.reply a)) (hk : k + j < atoms.length) :
    (xcb_get_resources_loop atoms k replies).getD (k + j) 0 = a := by
  induction replies generalizing atoms k j with
  | nil => simp at hr
  | cons r rest ih =>
    cases j with
    | zero =>
      simp only [List.getElem?_cons_zero, Option.some.injEq] at hr
      subst hr
      simp only [xcb_get_resources_loop, Nat.add_zero]
      rw [xcb_get_resources_loop_below _ _ _ _ (by omega)]
      simp only [List.getD_eq_getElem?_getD]
      rw [List.getElem?_set_self (by omega)]
      rfl
    | succ j =>
      have h0 := hno 0 (by omega)
      have hno2 : ∀ j2, j2 < j → ∀ c, rest[j2]? ≠ some (intern_atom_result.error c) := by
        intro j2 hj2 c
        have := hno (j2 + 1) (by omega) c
        simpa using this
      simp only [List.getElem?_cons_succ] at hr
      cases r with
      | reply b =>
        simp only [xcb_get_resources_loop]
        have := ih (atoms.set k b) (k + 1) j hno2 hr (by simp; omega)
        rw [show k + (j + 1) = k + 1 + j by omega]
        exact this
      | error c => exact absurd (by simp) (h0 c)
      | neither =>
        simp only [xcb_get_resources_loop]
        have := ih atoms (k + 1) j hno2 hr (by omega)
        rw [show k + (j + 1) = k + 1 + j by omega]
        exact this

theorem xcb_get_resources_loop_kept (replies : List intern_atom_result)
    (atoms : List Nat) (k j : Nat)
    (h : (∃ j2, j2 ≤ j ∧ ∃ c, replies[j2]? = some (intern_atom_result.error c)) ∨
      replies[j]? = some intern_atom_result.neither) :
    (xcb_get_resources_loop atoms k replies).getD (k + j) 0 = atoms.getD (k + j) 0 := by
  induction replies generalizing atoms k j with
  | nil => rfl
  | cons r rest ih =>
    cases r with
    | error c => rfl
    | reply b =>
      cases j with
      | zero =>
        rcases h with ⟨j2, hj2, c, hc⟩ | h
        · have : j2 = 0 := by omega
          subst this
          simp at hc
        · simp at h
      | succ j =>
        have h2 : (∃ j2, j2 ≤ j ∧ ∃ c, rest[j2]? = some (intern_atom_result.error c)) ∨
            rest[j]? = some intern_atom_result.neither := by
          rcases h with ⟨j2, hj2, c, hc⟩ | h
          · cases j2 with
            | zero => simp at hc
            | succ j2 => exact Or.inl ⟨j2, by omega, c, by simpa using hc⟩
          · exact Or.inr (by simpa using h)
        simp only [xcb_get_resources_loop]
        rw [show k + (j + 1) = k + 1 + j by omega, ih _ _ _ h2]
        simp only [List.getD_eq_getElem?_getD]
        rw [List.getElem?_set_ne (by omega)]
    | neither =>
      cases j with
      | zero =>
        simp only [xcb_get_resources_loop, Nat.add_zero]
        exact xcb_get_resources_loop_below _ _ _ _ (by omega)
      | succ j =>
        have h2 : (∃ j2, j2 ≤ j ∧ ∃ c, rest[j2]? = some (intern_atom_result.error c)) ∨
            rest[j]? = some intern_atom_result.neither := by
          rcases h with ⟨j2, hj2, c, hc⟩ | h
          · cases j2 with
            | zero => simp at hc
            | succ j2 => exact Or.inl ⟨j2, by omega, c, by simpa using hc⟩
          · exact Or.inr (by simpa using h)
        simp only [xcb_get_resources_loop]
        rw [show k + (j + 1) = k + 1 + j by omega, ih _ _ _ h2]

theorem mask_create_notify :
    XCB_CREATE_NOTIFY &&& XCB_EVENT_RESPONSE_TYPE_MASK = XCB_CREATE_NOTIFY := by decide

theorem mask_unmap_notify :
    XCB_UNMAP_NOTIFY &&& XCB_EVENT_RESPONSE_TYPE_MASK = XCB_UNMAP_NOTIFY := by decide

theorem mask_client_message :
    XCB_CLIENT_MESSAGE &&& XCB_EVENT_RESPONSE_TYPE_MASK = XCB_CLIENT_MESSAGE := by decide

theorem handle_event_create_notify (xwm : wlr_xwm) (env : Env) (ev : xcb_generic_event_t)
    (h : ev.response_type &&& XCB_EVENT_RESPONSE_TYPE_MASK = XCB_CREATE_NOTIFY) :
    handle_event xwm env ev = handle_create_notify xwm env ev := by
  unfold handle_event
  simp [h]

theorem handle_event_unmap_notify (xwm : wlr_xwm) (env : Env) (ev : xcb_generic_event_t)
    (h : ev.response_type &&& XCB_EVENT_RESPONSE_TYPE_MASK = XCB_UNMAP_NOTIFY) :
    handle_event xwm env ev = handle_unmap_notify xwm ev := by
  unfold handle_event
  simp [h, XCB_UNMAP_NOTIFY, XCB_CREATE_NOTIFY, XCB_DESTROY_NOTIFY, XCB_CONFIGURE_REQUEST,
    XCB_MAP_REQUEST, XCB_MAP_NOTIFY]

theorem handle_event_client_message (xwm : wlr_xwm) (env : Env) (ev : xcb_generic_event_t)
    (h : ev.response_type &&& XCB_EVENT_RESPONSE_TYPE_MASK = XCB_CLIENT_MESSAGE) :
    handle_event xwm env ev = handle_client_message xwm env ev := by
  unfold handle_event
  simp [h, XCB_CLIENT_MESSAGE, XCB_UNMAP_NOTIFY, XCB_CREATE_NOTIFY, XCB_DESTROY_NOTIFY,
    XCB_CONFIGURE_REQUEST, XCB_MAP_REQUEST, XCB_MAP_NOTIFY, XCB_PROPERTY_NOTIFY]

theorem x11_event_handler_single (xwm : wlr_xwm) (env : Env) (ev : xcb_generic_event_t) :
    x11_event_handler xwm [(env, ev)] =
      (1, (handle_event xwm env ev).1, (handle_event xwm env ev).2 ++ [Effect.xcb_flush]) := by
  simp [x11_event_handler, x11_event_loop]

theorem x11_event_loop_eq (queue : List (Env × xcb_generic_event_t)) (count : Nat)
    (xwm : wlr_xwm) (out : List Effect) :
    x11_event_loop count xwm out queue =
      (count + queue.length, fold_events xwm queue, out ++ fold_effects xwm queue) := by
  induction queue generalizing count xwm out with
  | nil => simp [x11_event_loop, fold_events, fold_effects]
  | cons p rest ih =>
    obtain ⟨env, event⟩ := p
    simp only [x11_event_loop, ih, fold_events, fold_effects, List.foldl_cons,
      List.length_cons, List.append_assoc]
    congr 1
    omega

theorem x11_event_handler_eq (xwm : wlr_xwm) (queue : List (Env × xcb_generic_event_t)) :
    x11_event_handler xwm queue =
      (queue.length, fold_events xwm queue, fold_effects xwm queue ++ [Effect.xcb_flush]) := by
  simp [x11_event_handler, x11_event_loop_eq]

theorem flush_not_mem_handle_client_message (xwm : wlr_xwm) (env : Env)
    (ev : xcb_generic_event_t) :
    Effect.xcb_flush ∉ (handle_client_message xwm env ev).2 := by
  unfold handle_client_message
  split
  · split
    · simp
    · dsimp only
      split <;> simp [map_shell_surface]
  · simp

theorem flush_not_mem_handle_event (xwm : wlr_xwm) (env : Env) (ev : xcb_generic_event_t) :
    Effect.xcb_flush ∉ (handle_event xwm env ev).2 := by
  unfold handle_event
  dsimp only
  split_ifs
  · simp [handle_create_notify]
  · unfold handle_destroy_notify
    split <;> simp [wlr_xwayland_surface_destroy]
  · unfold handle_configure_request
    split <;> simp
  · simp [handle_map_request]
  · unfold handle_map_notify
    split <;> simp
  · unfold handle_unmap_notify
    split <;> simp [wlr_xwayland_surface_destroy]
  · simp [handle_property_notify]
  · exact flush_not_mem_handle_client_message xwm env ev
  · simp

theorem flush_not_mem_fold_effects (queue : List (Env × xcb_generic_event_t))
    (xwm : wlr_xwm) : Effect.xcb_flush ∉ fold_effects xwm queue := by
  induction queue generalizing xwm with
  | nil => simp [fold_effects]
  | cons p rest ih =>
    simp only [fold_effects, List.mem_append, not_or]
    exact ⟨flush_not_mem_handle_event _ _ _, ih _⟩

theorem find_first_node {before after : List wlr_xwayland_surface}
    {test : wlr_xwayland_surface → Bool} {s : wlr_xwayland_surface}
    (hs : test s = true) (hb : ∀ t ∈ before, test t = false) :
    (before ++ s :: after).find? test = some s := by
  induction before with
  | nil => simp [List.find?_cons, hs]
  | cons a rest ih =>
    have ha : test a = false := hb a (List.mem_cons_self _ _)
    simp only [List.cons_append, List.find?_cons, ha]
    exact ih (fun t ht => hb t (List.mem_cons_of_mem _ ht))

theorem lookup_surface_first {before after : List wlr_xwayland_surface} {w : Nat}
    {s : wlr_xwayland_surface} (hs : s.window_id = w)
    (hb : ∀ t ∈ before, t.window_id ≠ w) :
    lookup_surface (before ++ s :: after) w = some s := by
  unfold lookup_surface
  apply find_first_node
  · simp [by_window, hs]
  · intro t ht
    simpa [by_window] using hb t ht

theorem xwm_destroy_loop_eq (list : surface_list) (nodes : List wlr_xwayland_surface)
    (xwm : wlr_xwm) (h : xwm.get_list list = nodes) :
    xwm_destroy_loop xwm list nodes =
      (xwm.set_list list [], nodes.map Effect.signal_destroy) := by
  induction nodes generalizing xwm with
  | nil =>
    simp only [xwm_destroy_loop, List.map_nil]
    cases list <;> simp only [wlr_xwm.get_list] at h <;> simp [wlr_xwm.set_list, ← h]
  | cons s tmp ih =>
    simp only [xwm_destroy_loop, wlr_xwayland_surface_destroy, h, wl_list_remove,
      List.eraseP_cons_of_pos, List.map_cons, List.singleton_append]
    rw [ih _ (by simp [get_list_set_list])]
    cases list <;> rfl

theorem destroy_signals_append (a b : List Effect) :
    destroy_signals (a ++ b) = destroy_signals a ++ destroy_signals b := by
  induction a with
  | nil => rfl
  | cons e rest ih => cases e <;> simp [destroy_signals, ih]

theorem destroy_signals_map (nodes : List wlr_xwayland_surface) :
    destroy_signals (nodes.map Effect.signal_destroy) = nodes := by
  induction nodes with
  | nil => rfl
  | cons s rest ih => simp [destroy_signals, ih]

theorem fold_events_cons (p : Env × xcb_generic_event_t)
    (queue : List (Env × xcb_generic_event_t)) (xwm : wlr_xwm) :
    fold_events xwm (p :: queue) = fold_events (handle_event xwm p.1 p.2).1 queue := rfl

theorem fold_effects_cons (p : Env × xcb_generic_event_t)
    (queue : List (Env × xcb_generic_event_t)) (xwm : wlr_xwm) :
    fold_effects xwm (p :: queue) =
      (handle_event xwm p.1 p.2).2 ++ fold_effects (handle_event xwm p.1 p.2).1 queue := rfl

theorem fold_events_append (a b : List (Env × xcb_generic_event_t)) (xwm : wlr_xwm) :
    fold_events xwm (a ++ b) = fold_events (fold_events xwm a) b := by
  simp [fold_events, List.foldl_append]

theorem fold_effects_append (a b : List (Env × xcb_generic_event_t)) (xwm : wlr_xwm) :
    fold_effects xwm (a ++ b) = fold_effects xwm a ++ fold_effects (fold_events xwm a) b := by
  induction a generalizing xwm with
  | nil => simp [fold_effects, fold_events]
  | cons p rest ih =>
    show (handle_event xwm p.1 p.2).2 ++ fold_effects (handle_event xwm p.1 p.2).1 (rest ++ b) =
      (handle_event xwm p.1 p.2).2 ++ fold_effects (handle_event xwm p.1 p.2).1 rest ++
        fold_effects (fold_events (handle_event xwm p.1 p.2).1 rest) b
    rw [ih, List.append_assoc]

theorem handle_event_ignored (xwm : wlr_xwm) (env : Env) (ev : xcb_generic_event_t)
    (h : ev.response_type &&& XCB_EVENT_RESPONSE_TYPE_MASK = XCB_PROPERTY_NOTIFY ∨
      handled_opcode ev.response_type = false) :
    handle_event xwm env ev = (xwm, []) := by
  unfold handle_event
  rcases h with h | h
  · simp [h, XCB_PROPERTY_NOTIFY, XCB_CREATE_NOTIFY, XCB_DESTROY_NOTIFY,
      XCB_CONFIGURE_REQUEST, XCB_MAP_REQUEST, XCB_MAP_NOTIFY, XCB_UNMAP_NOTIFY,
      handle_property_notify]
  · simp only [handled_opcode, List.contains_eq_any_beq, List.any_cons, List.any_nil,
      Bool.or_false, Bool.or_eq_false_iff, beq_eq_false_iff_ne, ne_eq] at h
    obtain ⟨h1, h2, h3, h4, h5, h6, h7, h8⟩ := h
    dsimp only
    rw [if_neg h1, if_neg h2, if_neg h3, if_neg h4, if_neg h5, if_neg h6, if_neg h7,
      if_neg h8]

theorem xor_sent_flag_masked (r : Nat) :
    (r ^^^ 0x80) &&& XCB_EVENT_RESPONSE_TYPE_MASK = r &&& XCB_EVENT_RESPONSE_TYPE_MASK := by
  rw [Nat.and_xor_distrib_right]
  have : 0x80 &&& XCB_EVENT_RESPONSE_TYPE_MASK = 0 := by decide
  rw [this, Nat.xor_zero]

theorem handle_event_low_bits (xwm : wlr_xwm) (env : Env) (ev : xcb_generic_event_t)
    (r1 r2 : Nat)
    (h : r1 &&& XCB_EVENT_RESPONSE_TYPE_MASK = r2 &&& XCB_EVENT_RESPONSE_TYPE_MASK) :
    handle_event xwm env (with_response_type ev r1) =
      handle_event xwm env (with_response_type ev r2) := by
  unfold handle_event with_response_type
  simp only [h]
  rfl

theorem perm_window_ids_map_shell_surface (xwm : wlr_xwm) (l : surface_list)
    (test : wlr_xwayland_surface → Bool) (s s0 : wlr_xwayland_surface)
    (surface : wlr_surface) (hf : (xwm.get_list l).find? test = some s0)
    (hw : s.window_id = s0.window_id) :
    (window_ids (map_shell_surface xwm l test s surface).1).Perm (window_ids xwm) := by
  rw [List.perm_iff_count]
  intro a
  have h2 := count_window_ids_move hf a
  unfold window_ids
  cases l <;>
    simp only [map_shell_surface, wlr_xwm.set_list, wlr_xwm.get_list, wl_list_insert,
      List.map_append, List.map_cons, List.count_append, List.count_cons, hw,
      beq_iff_eq] at h2 ⊢ <;>
    omega

theorem perm_window_ids_handle_client_message (xwm : wlr_xwm) (env : Env)
    (ev : xcb_generic_event_t) :
    (window_ids (handle_client_message xwm env ev).1).Perm (window_ids xwm) := by
  unfold handle_client_message
  split
  · split
    · exact List.Perm.refl _
    · rename_i s hs
      dsimp only
      split
      · exact perm_window_ids_map_shell_surface xwm _ _ _ s _ hs rfl
      · rw [List.perm_iff_count]
        intro a
        have h2 := count_window_ids_move hs a
        unfold window_ids
        simp only [wl_list_insert, List.map_append, List.map_cons, List.count_append,
          List.count_cons, beq_iff_eq] at h2 ⊢
        omega
  · exact List.Perm.refl _

theorem perm_window_ids_create_surface_handler (xwm : wlr_xwm) (surface : wlr_surface) :
    (window_ids (create_surface_handler xwm surface).1).Perm (window_ids xwm) := by
  unfold create_surface_handler
  split
  · exact List.Perm.refl _
  · dsimp only
    split
    · rename_i s hs
      exact perm_window_ids_map_shell_surface xwm _ _ _ s _ hs rfl
    · exact List.Perm.refl _

theorem quiet_step_refl (xwm : wlr_xwm) : quiet_step xwm (xwm, []) :=
  ⟨fun _ _ => rfl, rfl, rfl⟩

theorem length_wl_list_remove {list : List wlr_xwayland_surface}
    {test : wlr_xwayland_surface → Bool} {s : wlr_xwayland_surface}
    (h : list.find? test = some s) :
    (wl_list_remove list test).length + 1 = list.length := by
  obtain ⟨before, after, h1, _, _, h4, _⟩ := first_node_split h id
  rw [h4, h1]
  simp only [List.length_append, List.length_cons]
  omega

theorem quiet_step_store (xwm : wlr_xwm) (l : surface_list)
    (test : wlr_xwayland_surface → Bool)
    (f : wlr_xwayland_surface → wlr_xwayland_surface)
    (hf : ∀ s, (f s).window_id = s.window_id) (out : List Effect)
    (hout : ∀ live rest, announced_once live (out ++ rest) = announced_once live rest)
    (hsig : new_surface_signals out = []) :
    quiet_step xwm (xwm.set_list l (store (xwm.get_list l) test f), out) := by
  refine ⟨hout, hsig, ?_⟩
  cases l
  · simp only [wlr_xwm.set_list, wlr_xwm.get_list]
    exact map_store_window_id _ _ _ hf
  · rfl
  · rfl

theorem quiet_step_create (xwm : wlr_xwm) (env : Env) (w : Nat) (x y : Int)
    (width height : Nat) (o : Bool) :
    quiet_step xwm ((wlr_xwayland_surface_create xwm env w x y width height o).1, []) := by
  refine ⟨fun _ _ => rfl, rfl, ?_⟩
  unfold wlr_xwayland_surface_create
  split <;> rfl

theorem map_shell_surface_announces (xwm : wlr_xwm) (l : surface_list)
    (test : wlr_xwayland_surface → Bool) (e : wlr_xwayland_surface) (sid : Nat)
    (surface : wlr_surface) (tail : List Effect)
    (hl : l ≠ surface_list.displayable) (hf : (xwm.get_list l).find? test = some e)
    (ht : tail = [] ∨ tail = [Effect.xcb_flush]) :
    announce_step xwm
      ((map_shell_surface xwm l test { e with surface_id := sid } surface).1,
       (map_shell_surface xwm l test { e with surface_id := sid } surface).2 ++ tail) := by
  refine ⟨l, e, sid, surface, tail, hl, List.mem_of_find?_eq_some hf, rfl, ht, ?_, ?_⟩
  · cases l
    · exact absurd rfl hl
    · rfl
    · rfl
  · have := length_wl_list_remove hf
    cases l
    · exact absurd rfl hl
    · exact this
    · exact this

theorem handle_event_shape (xwm : wlr_xwm) (env : Env) (ev : xcb_generic_event_t) :
    quiet_step xwm (handle_event xwm env ev) ∨ destroy_step xwm (handle_event xwm env ev) ∨
      announce_step xwm (handle_event xwm env ev) := by
  unfold handle_event
  dsimp only
  split_ifs
  · exact Or.inl (quiet_step_create xwm env _ _ _ _ _ _)
  · unfold handle_destroy_notify
    split
    · exact Or.inl (quiet_step_refl xwm)
    · rename_i l s hl
      refine Or.inr (Or.inl ⟨l, s, rfl, ?_⟩)
      rw [(lookup_surface_some (lookup_surface_any_some hl)).2]
      rfl
  · unfold handle_configure_request
    split
    · exact Or.inl (quiet_step_refl xwm)
    · dsimp only
      apply Or.inl
      apply quiet_step_store
      · intro _; rfl
      · intro _ _; rfl
      · rfl
  · exact Or.inl ⟨fun _ _ => rfl, rfl, rfl⟩
  · unfold handle_map_notify
    split
    · apply Or.inl
      apply quiet_step_store
      · intro _; rfl
      · intro _ _; rfl
      · rfl
    · exact Or.inl (quiet_step_create xwm env _ _ _ _ _ _)
  · unfold handle_unmap_notify
    split
    · exact Or.inl (quiet_step_refl xwm)
    · rename_i l s hl
      refine Or.inr (Or.inl ⟨l, s, rfl, ?_⟩)
      rw [(lookup_surface_some (lookup_surface_any_some hl)).2]
      rfl
  · exact Or.inl (quiet_step_refl xwm)
  · unfold handle_client_message
    split
    · split
      · exact Or.inl (quiet_step_refl xwm)
      · rename_i s hs
        dsimp only
        split
        · have := map_shell_surface_announces xwm .new (by_window ev.window) s
            (ev.data32_at 0) (env.wl_resource_get_user_data ‹_›) [] (by decide) hs
            (Or.inl rfl)
          simpa using Or.inr (Or.inr this)
        · exact Or.inl ⟨fun _ _ => rfl, rfl, rfl⟩
    · exact Or.inl (quiet_step_refl xwm)
  · exact Or.inl (quiet_step_refl xwm)

theorem create_surface_handler_shape (xwm : wlr_xwm) (surface : wlr_surface) :
    quiet_step xwm (create_surface_handler xwm surface) ∨
      announce_step xwm (create_surface_handler xwm surface) := by
  unfold create_surface_handler
  split
  · exact Or.inl (quiet_step_refl xwm)
  · dsimp only
    split
    · rename_i s hs
      exact Or.inr (map_shell_surface_announces xwm .unpaired _ s s.surface_id surface
        [Effect.xcb_flush] (by decide) hs (Or.inr rfl))
    · exact Or.inl (quiet_step_refl xwm)

theorem step_shape (xwm : wlr_xwm) (i : Input) :
    quiet_step xwm (step xwm i) ∨ destroy_step xwm (step xwm i) ∨
      announce_step xwm (step xwm i) := by
  cases i with
  | x11 env event => exact handle_event_shape xwm env event
  | create_surface surface =>
    rcases create_surface_handler_shape xwm surface with h | h
    · exact Or.inl h
    · exact Or.inr (Or.inr h)

theorem not_displayable_of_unique {xwm : wlr_xwm} (hu : unique_ids xwm) {l : surface_list}
    (hl : l ≠ surface_list.displayable) {e : wlr_xwayland_surface}
    (he : e ∈ xwm.get_list l) :
    e.window_id ∉ xwm.displayable_surfaces.map (fun s => s.window_id) := by
  unfold unique_ids window_ids at hu
  rw [List.map_append, List.map_append, List.nodup_append, List.nodup_append] at hu
  obtain ⟨⟨_, _, hdu⟩, _, hn⟩ := hu
  intro hd
  cases l
  · exact hl rfl
  · exact hdu hd (List.mem_map_of_mem _ he)
  · exact hn (List.mem_append_left _ hd) (List.mem_map_of_mem _ he)

theorem displayable_ids_after_destroy (xwm : wlr_xwm) (l : surface_list) (w0 w : Nat)
    (hne : w ≠ w0) (hw : w ∈ xwm.displayable_surfaces.map (fun s => s.window_id)) :
    w ∈ (xwm.set_list l
      (wl_list_remove (xwm.get_list l) (by_window w0))).displayable_surfaces.map
        (fun s => s.window_id) := by
  cases l
  · simp only [wlr_xwm.set_list, wlr_xwm.get_list, wl_list_remove]
    obtain ⟨t, ht, rfl⟩ := List.mem_map.1 hw
    refine List.mem_map.2 ⟨t, ?_, rfl⟩
    rw [List.mem_eraseP_of_neg]
    · exact ht
    · simpa [by_window] using hne
  · exact hw
  · exact hw

theorem announced_once_run (inputs : List Input) (xwm : wlr_xwm) (live : List Nat)
    (hu : unique_ids xwm)
    (hl : ∀ w ∈ live, w ∈ xwm.displayable_surfaces.map (fun s => s.window_id))
    (hc : creates_fresh xwm inputs = true) :
    announced_once live (run xwm inputs).2 = true := by
  induction inputs generalizing xwm live with
  | nil => rfl
  | cons i rest ih =>
    simp only [creates_fresh, Bool.and_eq_true] at hc
    have hu2 := unique_ids_step hu i hc.1
    simp only [run]
    rcases step_shape xwm i with ⟨h1, _, h3⟩ | ⟨l, s, h1, h2⟩ | ⟨l, e, sid, surface, tail,
      h1, h2, h3, h4, h5, _⟩
    · rw [h1]
      exact ih _ live hu2 (fun w hw => h3 ▸ hl w hw) hc.2
    · rw [h1]
      simp only [List.singleton_append, announced_once]
      refine ih _ _ hu2 ?_ hc.2
      intro w hw
      rw [List.mem_filter] at hw
      rw [h2]
      exact displayable_ids_after_destroy xwm l s.window_id w (by simpa using hw.2)
        (hl w hw.1)
    · have hnd := not_displayable_of_unique hu h1 h2
      have hnl : e.window_id ∉ live := fun hm => hnd (hl _ hm)
      have hstep : announced_once live ((step xwm i).2 ++ (run (step xwm i).1 rest).2) =
          announced_once (e.window_id :: live) (run (step xwm i).1 rest).2 := by
        rw [h3]
        rcases h4 with rfl | rfl <;> simp [announced_once, hnl]
      rw [hstep]
      refine ih _ _ hu2 ?_ hc.2
      intro w hw
      rw [h5]
      simp only [List.map_cons, List.mem_cons] at hw ⊢
      rcases hw with rfl | hw
      · exact Or.inl rfl
      · exact Or.inr (hl w hw)

/-! ### The run with serials and the run without -/

theorem forget_tracked_remove (list : List tracked_node)
    (test : wlr_xwayland_surface → Bool) :
    forget_serials (tracked_remove list test) = wl_list_remove (forget_serials list) test := by
  unfold forget_serials tracked_remove wl_list_remove
  rw [List.eraseP_map]
  rfl

theorem forget_tracked_store (list : List tracked_node)
    (test : wlr_xwayland_surface → Bool)
    (f : wlr_xwayland_surface → wlr_xwayland_surface) :
    forget_serials (tracked_store list test f) = store (forget_serials list) test f := by
  induction list with
  | nil => rfl
  | cons n rest ih =>
    unfold forget_serials at ih ⊢
    by_cases h : test n.node
    · simp [tracked_store, store, h]
    · simp [tracked_store, store, h, ih]

theorem forget_find (list : List tracked_node) (test : wlr_xwayland_surface → Bool) :
    (forget_serials list).find? test =
      (list.find? (fun n => test n.node)).map (fun n => n.node) := by
  unfold forget_serials
  rw [List.find?_map]
  rfl

theorem forget_lookup_surface (list : List tracked_node) (w : Nat) :
    lookup_surface (forget_serials list) w =
      (tracked_lookup_surface list w).map (fun n => n.node) :=
  forget_find list (by_window w)

theorem forget_get_list (t : tracked_xwm) (l : surface_list) :
    t.forget.get_list l = forget_serials (t.get_list l) := by
  cases l <;> rfl

theorem forget_set_list (t : tracked_xwm) (l : surface_list) (v : List tracked_node) :
    (t.set_list l v).forget = t.forget.set_list l (forget_serials v) := by
  cases l <;> rfl

theorem forget_lookup_surface_any (t : tracked_xwm) (w : Nat) :
    lookup_surface_any t.forget w =
      (tracked_lookup_surface_any t w).map (fun p => (p.1, p.2.node)) := by
  unfold lookup_surface_any tracked_lookup_surface_any
  simp only [tracked_xwm.forget, forget_lookup_surface]
  cases tracked_lookup_surface t.displayable_surfaces w with
  | some n => rfl
  | none =>
    cases tracked_lookup_surface t.unpaired_surfaces w with
    | some n => rfl
    | none =>
      cases tracked_lookup_surface t.new_surfaces w with
      | some n => rfl
      | none => rfl

theorem forget_tracked_surface_create (t : tracked_xwm) (env : Env) (w : Nat) (x y : Int)
    (width height : Nat) (o : Bool) :
    (tracked_surface_create t env w x y width height o).forget =
      (wlr_xwayland_surface_create t.forget env w x y width height o).1 := by
  unfold tracked_surface_create wlr_xwayland_surface_create
  split <;> rfl

theorem forget_tracked_surface_destroy (t : tracked_xwm) (l : surface_list)
    (test : wlr_xwayland_surface → Bool) (n : tracked_node) :
    (tracked_surface_destroy t l test n).1.forget =
        (wlr_xwayland_surface_destroy t.forget l test n.node).1 ∧
      forget_effect_serials (tracked_surface_destroy t l test n).2 =
        (wlr_xwayland_surface_destroy t.forget l test n.node).2 := by
  refine ⟨?_, rfl⟩
  simp only [tracked_surface_destroy, wlr_xwayland_surface_destroy, forget_set_list,
    forget_tracked_remove, forget_get_list]

theorem forget_tracked_map_shell_surface (t : tracked_xwm) (l : surface_list)
    (test : wlr_xwayland_surface → Bool) (n : tracked_node) (surface : wlr_surface) :
    (tracked_map_shell_surface t l test n surface).1.forget =
        (map_shell_surface t.forget l test n.node surface).1 ∧
      forget_effect_serials (tracked_map_shell_surface t l test n surface).2 =
        (map_shell_surface t.forget l test n.node surface).2 := by
  refine ⟨?_, rfl⟩
  simp only [tracked_map_shell_surface, map_shell_surface, forget_get_list,
    ← forget_tracked_remove, ← forget_set_list]
  rfl

theorem forget_tracked_handle_client_message (t : tracked_xwm) (env : Env)
    (ev : xcb_generic_event_t) :
    (tracked_handle_client_message t env ev).1.forget =
        (handle_client_message t.forget env ev).1 ∧
      forget_effect_serials (tracked_handle_client_message t env ev).2 =
        (handle_client_message t.forget env ev).2 := by
  unfold tracked_handle_client_message handle_client_message
  split
  · have hl := forget_lookup_surface t.new_surfaces ev.window
    change lookup_surface t.forget.new_surfaces ev.window = _ at hl
    rw [hl]
    cases tracked_lookup_surface t.new_surfaces ev.window with
    | none => exact ⟨rfl, rfl⟩
    | some n =>
      simp only [Option.map_some']
      have hc : t.forget.client = t.client := rfl
      cases hobj : env.wl_client_get_object t.client (ev.data32_at 0) with
      | some resource =>
        simp only [hc, hobj]
        exact forget_tracked_map_shell_surface t .new (by_window ev.window) _ _
      | none =>
        simp only [hc, hobj]
        refine ⟨?_, rfl⟩
        simp only [tracked_xwm.forget, wl_list_insert, ← forget_tracked_remove]
        rfl
  · exact ⟨rfl, rfl⟩

theorem forget_tracked_handle_event (t : tracked_xwm) (env : Env)
    (ev : xcb_generic_event_t) :
    (tracked_handle_event t env ev).1.forget = (handle_event t.forget env ev).1 ∧
      forget_effect_serials (tracked_handle_event t env ev).2 =
        (handle_event t.forget env ev).2 := by
  unfold tracked_handle_event handle_event
  dsimp only
  split_ifs
  · exact ⟨forget_tracked_surface_create t env _ _ _ _ _ _, rfl⟩
  · unfold handle_destroy_notify
    rw [forget_lookup_surface_any]
    cases tracked_lookup_surface_any t ev.window with
    | none => exact ⟨rfl, rfl⟩
    | some p => exact forget_tracked_surface_destroy t p.1 (by_window ev.window) p.2
  · have hl := forget_lookup_surface_any t ev.window
    cases hp : tracked_lookup_surface_any t ev.window with
    | none =>
      rw [hp] at hl
      unfold handle_configure_request
      rw [hl]
      exact ⟨rfl, rfl⟩
    | some p =>
      rw [hp] at hl
      unfold handle_configure_request
      rw [hl]
      refine ⟨?_, rfl⟩
      simp only [Option.map_some', forget_set_list, forget_tracked_store, forget_get_list]
  · exact ⟨rfl, rfl⟩
  · unfold handle_map_notify
    rw [forget_lookup_surface_any]
    cases tracked_lookup_surface_any t ev.window with
    | none => exact ⟨forget_tracked_surface_create t env _ _ _ _ _ _, rfl⟩
    | some p =>
      refine ⟨?_, rfl⟩
      simp only [Option.map_some', forget_set_list, forget_tracked_store, forget_get_list]
  · unfold handle_unmap_notify
    rw [forget_lookup_surface_any]
    cases tracked_lookup_surface_any t ev.window with
    | none => exact ⟨rfl, rfl⟩
    | some p => exact forget_tracked_surface_destroy t p.1 (by_window ev.window) p.2
  · exact ⟨rfl, rfl⟩
  · exact forget_tracked_handle_client_message t env ev
  · exact ⟨rfl, rfl⟩

theorem forget_tracked_create_surface_handler (t : tracked_xwm) (surface : wlr_surface) :
    (tracked_create_surface_handler t surface).1.forget =
        (create_surface_handler t.forget surface).1 ∧
      forget_effect_serials (tracked_create_surface_handler t surface).2 =
        (create_surface_handler t.forget surface).2 := by
  unfold tracked_create_surface_handler create_surface_handler
  have hc : t.forget.client = t.client := rfl
  rw [hc]
  split
  · exact ⟨rfl, rfl⟩
  · have hf := forget_find t.unpaired_surfaces (by_surface_id surface.resource.id)
    change find_unpaired t.forget.unpaired_surfaces surface.resource.id = _ at hf
    dsimp only
    rw [hf]
    cases t.unpaired_surfaces.find? (fun n => by_surface_id surface.resource.id n.node) with
    | none => exact ⟨rfl, rfl⟩
    | some n =>
      have := forget_tracked_map_shell_surface t .unpaired
        (by_surface_id surface.resource.id) n surface
      refine ⟨this.1, ?_⟩
      simp only [Option.map_some', ← this.2]
      simp [forget_effect_serials]

theorem forget_tracked_step (t : tracked_xwm) (i : Input) :
    (tracked_step t i).1.forget = (step t.forget i).1 ∧
      forget_effect_serials (tracked_step t i).2 = (step t.forget i).2 := by
  cases i with
  | x11 env event => exact forget_tracked_handle_event t env event
  | create_surface surface => exact forget_tracked_create_surface_handler t surface

theorem forget_tracked_run (inputs : List Input) (t : tracked_xwm) :
    (tracked_run t inputs).1.forget = (run t.forget inputs).1 ∧
      forget_effect_serials (tracked_run t inputs).2 = (run t.forget inputs).2 := by
  induction inputs generalizing t with
  | nil => exact ⟨rfl, rfl⟩
  | cons i rest ih =>
    have hs := forget_tracked_step t i
    have hr := ih (tracked_step t i).1
    simp only [tracked_run, run]
    rw [← hs.1, ← hs.2, ← hr.1, ← hr.2]
    refine ⟨rfl, ?_⟩
    simp [forget_effect_serials]

theorem serial_count_cons (n : tracked_node) (list : List tracked_node) (k : Nat) :
    serial_count (n :: list) k = serial_count list k + (if n.serial = k then 1 else 0) := by
  simp [serial_count, List.count_cons]

theorem serial_count_remove_le (list : List tracked_node)
    (test : wlr_xwayland_surface → Bool) (k : Nat) :
    serial_count (tracked_remove list test) k ≤ serial_count list k := by
  unfold serial_count tracked_remove
  exact ((List.eraseP_sublist list).map _).count_le k

theorem serial_count_store (list : List tracked_node)
    (test : wlr_xwayland_surface → Bool)
    (f : wlr_xwayland_surface → wlr_xwayland_surface) (k : Nat) :
    serial_count (tracked_store list test f) k = serial_count list k := by
  induction list with
  | nil => rfl
  | cons n rest ih =>
    by_cases h : test n.node
    · simp [tracked_store, h, serial_count]
    · simp only [tracked_store, h, Bool.false_eq_true, if_false, serial_count_cons, ih]

theorem serial_count_move {list : List tracked_node}
    {test : wlr_xwayland_surface → Bool} {n : tracked_node}
    (h : list.find? (fun n => test n.node) = some n) (k : Nat) :
    serial_count list k =
      serial_count (tracked_remove list test) k + (if n.serial = k then 1 else 0) := by
  induction list with
  | nil => simp at h
  | cons a rest ih =>
    by_cases ha : test a.node
    · simp [List.find?_cons, ha] at h
      subst h
      simp [tracked_remove, List.eraseP_cons, ha, serial_count_cons]
    · simp [List.find?_cons, ha] at h
      have := ih h
      have he : (a :: rest).eraseP (fun n => test n.node) =
          a :: rest.eraseP (fun n => test n.node) :=
        List.eraseP_cons_of_neg (by simpa using ha)
      simp only [tracked_remove, he, serial_count_cons] at this ⊢
      omega

theorem count_append_singleton (ann : List Nat) (s k : Nat) :
    List.count k (ann ++ [s]) = List.count k ann + (if s = k then 1 else 0) := by
  simp [List.count_append, List.count_cons]

theorem tracked_inv_empty (atoms : List Nat) (client : Nat) :
    tracked_inv (tracked_empty atoms client) [] := by
  intro k
  simp [tracked_empty, serial_count]

theorem tracked_inv_create (t : tracked_xwm) (ann : List Nat) (h : tracked_inv t ann)
    (env : Env) (w : Nat) (x y : Int) (width height : Nat) (o : Bool) :
    tracked_inv (tracked_surface_create t env w x y width height o) ann := by
  unfold tracked_surface_create
  split
  · intro k
    have hk := h k
    simp only [serial_count_cons]
    split <;> omega
  · exact h

theorem tracked_inv_remove (t : tracked_xwm) (ann : List Nat) (h : tracked_inv t ann)
    (l : surface_list) (test : wlr_xwayland_surface → Bool) :
    tracked_inv (t.set_list l (tracked_remove (t.get_list l) test)) ann := by
  intro k
  have hk := h k
  have hle := serial_count_remove_le (t.get_list l) test k
  cases l <;> simp only [tracked_xwm.set_list, tracked_xwm.get_list] at hle ⊢ <;> omega

theorem tracked_inv_store (t : tracked_xwm) (ann : List Nat) (h : tracked_inv t ann)
    (l : surface_list) (test : wlr_xwayland_surface → Bool)
    (f : wlr_xwayland_surface → wlr_xwayland_surface) :
    tracked_inv (t.set_list l (tracked_store (t.get_list l) test f)) ann := by
  intro k
  have hk := h k
  have he := serial_count_store (t.get_list l) test f k
  cases l <;> simp only [tracked_xwm.set_list, tracked_xwm.get_list] at he ⊢ <;> omega

theorem tracked_inv_map_shell_surface (t : tracked_xwm) (ann : List Nat)
    (h : tracked_inv t ann) (l : surface_list) (hl : l ≠ surface_list.displayable)
    (test : wlr_xwayland_surface → Bool) (n0 n : tracked_node) (surface : wlr_surface)
    (hf : (t.get_list l).find? (fun n => test n.node) = some n0)
    (hs : n.serial = n0.serial) :
    tracked_inv (tracked_map_shell_surface t l test n surface).1 (ann ++ [n0.serial]) ∧
      announced_serials (tracked_map_shell_surface t l test n surface).2 = [n0.serial] := by
  refine ⟨?_, by simp [tracked_map_shell_surface, announced_serials, hs]⟩
  intro k
  have hk := h k
  have hm := serial_count_move hf k
  rw [count_append_singleton]
  cases l
  · exact absurd rfl hl
  · simp only [tracked_map_shell_surface, tracked_xwm.set_list, tracked_xwm.get_list,
      serial_count_cons, hs] at hm ⊢
    by_cases hk0 : n0.serial = k <;> simp only [hk0, if_true, if_false] at hm ⊢ <;> omega
  · simp only [tracked_map_shell_surface, tracked_xwm.set_list, tracked_xwm.get_list,
      serial_count_cons, hs] at hm ⊢
    by_cases hk0 : n0.serial = k <;> simp only [hk0, if_true, if_false] at hm ⊢ <;> omega

theorem announced_serials_append (a b : List tracked_effect) :
    announced_serials (a ++ b) = announced_serials a ++ announced_serials b := by
  induction a with
  | nil => rfl
  | cons e rest ih =>
    obtain ⟨k, e⟩ := e
    cases k <;> cases e <;> simp [announced_serials, ih]

theorem new_surface_signals_append (a b : List Effect) :
    new_surface_signals (a ++ b) = new_surface_signals a ++ new_surface_signals b := by
  induction a with
  | nil => rfl
  | cons e rest ih => cases e <;> simp [new_surface_signals, ih]

theorem tracked_inv_handle_client_message (t : tracked_xwm) (ann : List Nat)
    (h : tracked_inv t ann) (env : Env) (ev : xcb_generic_event_t) :
    tracked_inv (tracked_handle_client_message t env ev).1
      (ann ++ announced_serials (tracked_handle_client_message t env ev).2) := by
  unfold tracked_handle_client_message
  split
  · cases hf : tracked_lookup_surface t.new_surfaces ev.window with
    | none => simpa [announced_serials] using h
    | some n0 =>
      dsimp only
      cases env.wl_client_get_object t.client (ev.data32_at 0) with
      | some resource =>
        have := tracked_inv_map_shell_surface t ann h .new (by decide) (by_window ev.window)
          n0 { n0 with node := { n0.node with surface_id := ev.data32_at 0 } }
          (env.wl_resource_get_user_data resource) hf rfl
        dsimp only
        rw [this.2]
        exact this.1
      | none =>
        dsimp only
        simp only [announced_serials, List.append_nil]
        intro k
        have hk := h k
        have hm := serial_count_move hf k
        simp only [serial_count_cons]
        by_cases hk0 : n0.serial = k <;> simp only [hk0, if_true, if_false] at hm ⊢ <;> omega
  · simpa [announced_serials] using h

theorem tracked_inv_destroy (t : tracked_xwm) (ann : List Nat) (h : tracked_inv t ann)
    (l : surface_list) (test : wlr_xwayland_surface → Bool) (n : tracked_node) :
    tracked_inv (tracked_surface_destroy t l test n).1
      (ann ++ announced_serials (tracked_surface_destroy t l test n).2) := by
  simp only [tracked_surface_destroy, announced_serials, List.append_nil]
  exact tracked_inv_remove t ann h l test

theorem tracked_inv_handle_event (t : tracked_xwm) (ann : List Nat)
    (h : tracked_inv t ann) (env : Env) (ev : xcb_generic_event_t) :
    tracked_inv (tracked_handle_event t env ev).1
      (ann ++ announced_serials (tracked_handle_event t env ev).2) := by
  unfold tracked_handle_event
  dsimp only
  split_ifs
  · simpa [announced_serials] using tracked_inv_create t ann h env _ _ _ _ _ _
  · split
    · simpa [announced_serials] using h
    · exact tracked_inv_destroy t ann h _ _ _
  · split
    · simpa [announced_serials] using h
    · simpa [announced_serials] using tracked_inv_store t ann h _ _ _
  · simpa [announced_serials] using h
  · split
    · simpa [announced_serials] using tracked_inv_store t ann h _ _ _
    · simpa [announced_serials] using tracked_inv_create t ann h env _ _ _ _ _ _
  · split
    · simpa [announced_serials] using h
    · exact tracked_inv_destroy t ann h _ _ _
  · simpa [announced_serials] using h
  · exact tracked_inv_handle_client_message t ann h env ev
  · simpa [announced_serials] using h

theorem tracked_inv_create_surface_handler (t : tracked_xwm) (ann : List Nat)
    (h : tracked_inv t ann) (surface : wlr_surface) :
    tracked_inv (tracked_create_surface_handler t surface).1
      (ann ++ announced_serials (tracked_create_surface_handler t surface).2) := by
  unfold tracked_create_surface_handler
  split
  · simpa [announced_serials] using h
  · dsimp only
    cases hf : t.unpaired_surfaces.find?
        (fun n => by_surface_id surface.resource.id n.node) with
    | none => simpa [announced_serials] using h
    | some n0 =>
      have := tracked_inv_map_shell_surface t ann h .unpaired (by decide)
        (by_surface_id surface.resource.id) n0 n0 surface hf rfl
      dsimp only
      rw [announced_serials_append, this.2]
      simpa [announced_serials] using this.1

theorem tracked_inv_step (t : tracked_xwm) (ann : List Nat) (h : tracked_inv t ann)
    (i : Input) :
    tracked_inv (tracked_step t i).1 (ann ++ announced_serials (tracked_step t i).2) := by
  cases i with
  | x11 env event => exact tracked_inv_handle_event t ann h env event
  | create_surface surface => exact tracked_inv_create_surface_handler t ann h surface

theorem tracked_inv_run (inputs : List Input) (t : tracked_xwm) (ann : List Nat)
    (h : tracked_inv t ann) :
    tracked_inv (tracked_run t inputs).1 (ann ++ announced_serials (tracked_run t inputs).2) := by
  induction inputs generalizing t ann with
  | nil => simpa [tracked_run, announced_serials] using h
  | cons i rest ih =>
    have := ih _ _ (tracked_inv_step t ann h i)
    simp only [tracked_run, announced_serials_append]
    rw [← List.append_assoc]
    exact this

theorem nodup_of_tracked_inv {t : tracked_xwm} {ann : List Nat} (h : tracked_inv t ann) :
    (tracked_serials t).Nodup ∧ ann.Nodup := by
  constructor
  · rw [List.nodup_iff_count_le_one]
    intro k
    have := (h k).1
    simp only [tracked_serials, serial_count, List.map_append, List.count_append] at this ⊢
    omega
  · rw [List.nodup_iff_count_le_one]
    intro k
    exact (h k).2.1

theorem not_announced_of_tracked_inv {t : tracked_xwm} {ann : List Nat}
    (h : tracked_inv t ann) (n : tracked_node)
    (hn : n ∈ t.unpaired_surfaces ++ t.new_surfaces) : n.serial ∉ ann := by
  intro hm
  have hk := (h n.serial).2.2.1 (List.count_pos_iff.2 hm)
  have hpos : ∀ list : List tracked_node, n ∈ list → 0 < serial_count list n.serial :=
    fun list hl => List.count_pos_iff.2 (List.mem_map_of_mem _ hl)
  rcases List.mem_append.1 hn with hu | hw
  · have := hpos _ hu
    omega
  · have := hpos _ hw
    omega

theorem announced_length_of_serials (out : List tracked_effect)
    (h : ∀ e ∈ out, serial_missing e = false) :
    (announced_serials out).length =
      (new_surface_signals (forget_effect_serials out)).length := by
  induction out with
  | nil => rfl
  | cons e rest ih =>
    have hr := ih (fun e he => h e (List.mem_cons_of_mem _ he))
    have he := h e (List.mem_cons_self _ _)
    obtain ⟨k, e⟩ := e
    unfold forget_effect_serials at hr ⊢
    cases k with
    | none =>
      cases e <;> first
        | (simp only [announced_serials, new_surface_signals, List.map_cons]; exact hr)
        | (simp [serial_missing] at he)
    | some k =>
      cases e <;>
        (simp only [announced_serials, new_surface_signals, List.map_cons,
          List.length_cons]; omega)

theorem serials_present_handle_client_message (t : tracked_xwm) (env : Env)
    (ev : xcb_generic_event_t) :
    ∀ e ∈ (tracked_handle_client_message t env ev).2, serial_missing e = false := by
  unfold tracked_handle_client_message
  split
  · split
    · simp
    · dsimp only
      split <;> simp [tracked_map_shell_surface, serial_missing]
  · simp

theorem serials_present_step (t : tracked_xwm) (i : Input) :
    ∀ e ∈ (tracked_step t i).2, serial_missing e = false := by
  cases i with
  | x11 env ev =>
    simp only [tracked_step]
    unfold tracked_handle_event
    dsimp only
    split_ifs
    · simp
    · split <;> simp [tracked_surface_destroy, serial_missing]
    · split <;> simp [serial_missing]
    · simp [serial_missing]
    · split <;> simp
    · split <;> simp [tracked_surface_destroy, serial_missing]
    · simp
    · exact serials_present_handle_client_message t env ev
    · simp
  | create_surface surface =>
    simp only [tracked_step]
    unfold tracked_create_surface_handler
    split
    · simp
    · dsimp only
      split <;> simp [tracked_map_shell_surface, serial_missing]

theorem serials_present_run (inputs : List Input) (t : tracked_xwm) :
    ∀ e ∈ (tracked_run t inputs).2, serial_missing e = false := by
  induction inputs generalizing t with
  | nil => simp [tracked_run]
  | cons i rest ih =>
    intro e he
    simp only [tracked_run, List.mem_append] at he
    rcases he with he | he
    · exact serials_present_step t i e he
    · exact ih _ e he

/-! ## Claim C1 -/

/-- C1 (as stated, refuted). From the empty registry, CreateNotify for window 7, a
WL_SURFACE_ID message for it naming a surface that does not exist yet, and a second
CreateNotify for window 7 leave window id 7 both in unpaired_surfaces and in
new_surfaces: the window ids are not distinct. -/
theorem C1_duplicate_create_notify :
    let xwm := (run (empty_registry sample_atoms 1)
      [Input.x11 (env_with []) (create_notify 7 0 0 100 50 false),
       Input.x11 (env_with []) (client_message 7 100 42),
       Input.x11 (env_with []) (create_notify 7 0 0 100 50 false)]).1
    7 ∈ xwm.unpaired_surfaces.map (fun s => s.window_id) ∧
      7 ∈ xwm.new_surfaces.map (fun s => s.window_id) ∧
      ¬ (window_ids xwm).Nodup := by
  decide

/-- C1 (amended). From the empty registry, after every finite sequence of X11
events and surface-created signals in which each CreateNotify names a window that
is not tracked when it is handled, no window id occurs twice in the union of
displayable, unpaired and new, and no window id is in two of the lists. -/
theorem C1_unique_window_ids (atoms : List Nat) (client : Nat) (inputs : List Input)
    (h : creates_fresh (empty_registry atoms client) inputs = true) :
    (window_ids (run (empty_registry atoms client) inputs).1).Nodup ∧
    ∀ l1 l2 : surface_list, l1 ≠ l2 →
      ∀ s1 ∈ (run (empty_registry atoms client) inputs).1.get_list l1,
      ∀ s2 ∈ (run (empty_registry atoms client) inputs).1.get_list l2,
        s1.window_id ≠ s2.window_id := by
  have hu : unique_ids (run (empty_registry atoms client) inputs).1 :=
    unique_ids_run (by simp [unique_ids, window_ids, empty_registry]) inputs h
  refine ⟨hu, ?_⟩
  unfold unique_ids window_ids at hu
  rw [List.map_append, List.map_append, List.nodup_append, List.nodup_append] at hu
  obtain ⟨⟨_, _, hdu⟩, _, hn⟩ := hu
  have hd : ∀ s1 ∈ (run (empty_registry atoms client) inputs).1.displayable_surfaces,
      ∀ s2 ∈ (run (empty_registry atoms client) inputs).1.unpaired_surfaces,
      s1.window_id ≠ s2.window_id := fun s1 h1 s2 h2 he =>
    hdu (List.mem_map_of_mem _ h1) (he ▸ List.mem_map_of_mem _ h2)
  have hdn : ∀ s1 ∈ (run (empty_registry atoms client) inputs).1.displayable_surfaces,
      ∀ s2 ∈ (run (empty_registry atoms client) inputs).1.new_surfaces,
      s1.window_id ≠ s2.window_id := fun s1 h1 s2 h2 he =>
    hn (List.mem_append_left _ (List.mem_map_of_mem _ h1)) (he ▸ List.mem_map_of_mem _ h2)
  have hun : ∀ s1 ∈ (run (empty_registry atoms client) inputs).1.unpaired_surfaces,
      ∀ s2 ∈ (run (empty_registry atoms client) inputs).1.new_surfaces,
      s1.window_id ≠ s2.window_id := fun s1 h1 s2 h2 he =>
    hn (List.mem_append_right _ (List.mem_map_of_mem _ h1)) (he ▸ List.mem_map_of_mem _ h2)
  intro l1 l2 hne s1 h1 s2 h2
  cases l1 <;> cases l2 <;> simp only [wlr_xwm.get_list] at h1 h2
  · exact absurd rfl hne
  · exact hd s1 h1 s2 h2
  · exact hdn s1 h1 s2 h2
  · exact fun he => hd s2 h2 s1 h1 he.symm
  · exact absurd rfl hne
  · exact hun s1 h1 s2 h2
  · exact fun he => hdn s2 h2 s1 h1 he.symm
  · exact fun he => hun s2 h2 s1 h1 he.symm
  · exact absurd rfl hne

/-- C1 (witness): a run in which window 7 is created, paired, unmapped and created
again -/
theorem C1_unique_window_ids_witness :
    creates_fresh (empty_registry sample_atoms 1)
      [Input.x11 (env_with []) (create_notify 7 0 0 100 50 false),
       Input.x11 (env_with []) (client_message 7 100 42),
       Input.create_surface (surface_of 1 42),
       Input.x11 (env_with []) (window_event XCB_UNMAP_NOTIFY 7),
       Input.x11 (env_with []) (create_notify 7 0 0 100 50 false),
       Input.x11 (env_with []) (create_notify 8 0 0 100 50 false)] = true ∧
    (window_ids (run (empty_registry sample_atoms 1)
      [Input.x11 (env_with []) (create_notify 7 0 0 100 50 false),
       Input.x11 (env_with []) (client_message 7 100 42),
       Input.create_surface (surface_of 1 42),
       Input.x11 (env_with []) (window_event XCB_UNMAP_NOTIFY 7),
       Input.x11 (env_with []) (create_notify 7 0 0 100 50 false),
       Input.x11 (env_with []) (create_notify 8 0 0 100 50 false)]).1).Nodup :=
  ⟨by decide, (C1_unique_window_ids _ _ _ (by decide)).1⟩

/-! ## Claim C2 -/

/-- C2. In every state reached from the empty registry by X11 events and
surface-created signals, a tracked node has a bound surface if and only if it is
linked into displayable_surfaces; nodes in new_surfaces and unpaired_surfaces have
none. -/
theorem C2_surface_bound_iff_displayable (atoms : List Nat) (client : Nat)
    (inputs : List Input) (l : surface_list) (s : wlr_xwayland_surface)
    (h : s ∈ (run (empty_registry atoms client) inputs).1.get_list l) :
    (s.surface ≠ none ↔ l = surface_list.displayable) :=
  surfaces_bound_run (surfaces_bound_empty atoms client) inputs l s h

/-- C2 (witness): after window 7 is paired with surface 42 and window 8 is only
created, the node of window 7 sits in displayable_surfaces with surface 42 bound -/
theorem C2_surface_bound_iff_displayable_witness :
    ({ window_id := 7, surface_id := 42, surface := some (surface_of 1 42), x := 0, y := 0,
       width := 100, height := 50, override_redirect := false } : wlr_xwayland_surface) ∈
      (run (empty_registry sample_atoms 1) sample_inputs).1.get_list
        surface_list.displayable ∧
    (some (surface_of 1 42) ≠ none ↔ surface_list.displayable = surface_list.displayable) :=
  ⟨by decide, C2_surface_bound_iff_displayable sample_atoms 1 sample_inputs
    surface_list.displayable
    { window_id := 7, surface_id := 42, surface := some (surface_of 1 42), x := 0, y := 0,
      width := 100, height := 50, override_redirect := false } (by decide)⟩

/-! ## Claim C3 -/

/-- C3 (as stated, refuted). Window 1 is unpaired and already waits for surface 42,
window 2 is new. Message (2, 42) before the surface exists and then the signal ends
with window 1 still unpaired; the signal first and then the message ends with both
windows displayable: the two final states differ. -/
theorem C3_orders_differ :
    (create_surface_handler
        (handle_client_message two_windows (env_with []) (client_message 2 100 42)).1
        (surface_of 1 42)).1 ≠
      (handle_client_message (create_surface_handler two_windows (surface_of 1 42)).1
        (env_with [surface_of 1 42]) (client_message 2 100 42)).1 := by
  decide

/-- C3 (amended). When window w is in new_surfaces and no unpaired node already
records surface id s, the message (w, s) before surface s exists followed by the
surface-created signal for s, and the signal followed by the message with s
existing, end in the same state: the node of w is at the head of
displayable_surfaces with surface_id s and the surface bound, it is gone from
new_surfaces, and unpaired_surfaces is as before. -/
theorem C3_pairing_order_independent (xwm : wlr_xwm) (env_a env_b : Env)
    (ev : xcb_generic_event_t) (surface : wlr_surface) (e : wlr_xwayland_surface)
    (htype : ev.type = xwm.atom WL_SURFACE_ID)
    (hnew : lookup_surface xwm.new_surfaces ev.window = some e)
    (hid : surface.resource.id = ev.data32_at 0)
    (hclient : surface.resource.client = xwm.client)
    (ha : env_a.wl_client_get_object xwm.client (ev.data32_at 0) = none)
    (hb : env_b.wl_client_get_object xwm.client (ev.data32_at 0) =
      some surface.resource)
    (hdata : env_b.wl_resource_get_user_data surface.resource = surface)
    (hun : find_unpaired xwm.unpaired_surfaces (ev.data32_at 0) = none) :
    (create_surface_handler (handle_client_message xwm env_a ev).1 surface).1 =
      (handle_client_message (create_surface_handler xwm surface).1 env_b ev).1 ∧
    (create_surface_handler (handle_client_message xwm env_a ev).1 surface).1 =
      { xwm with
        displayable_surfaces :=
          { e with surface_id := ev.data32_at 0, surface := some surface } ::
            xwm.displayable_surfaces
        new_surfaces := wl_list_remove xwm.new_surfaces (by_window ev.window) } := by
  have h1 : create_surface_handler xwm surface = (xwm, []) := by
    simp [create_surface_handler, hclient, hid, hun]
  have h2 : handle_client_message xwm env_b ev =
      ({ xwm with
        displayable_surfaces :=
          { e with surface_id := ev.data32_at 0, surface := some surface } ::
            xwm.displayable_surfaces
        new_surfaces := wl_list_remove xwm.new_surfaces (by_window ev.window) },
       [Effect.signal_new_surface
          { e with surface_id := ev.data32_at 0, surface := some surface }]) := by
    simp [handle_client_message, htype, hnew, hb, hdata, map_shell_surface,
      wlr_xwm.set_list, wlr_xwm.get_list, wl_list_insert]
  have h3 : handle_client_message xwm env_a ev =
      ({ xwm with
        new_surfaces := wl_list_remove xwm.new_surfaces (by_window ev.window)
        unpaired_surfaces :=
          { e with surface_id := ev.data32_at 0 } :: xwm.unpaired_surfaces }, []) := by
    simp [handle_client_message, htype, hnew, ha, wl_list_insert]
  have h4 : (create_surface_handler (handle_client_message xwm env_a ev).1 surface).1 =
      { xwm with
        displayable_surfaces :=
          { e with surface_id := ev.data32_at 0, surface := some surface } ::
            xwm.displayable_surfaces
        new_surfaces := wl_list_remove xwm.new_surfaces (by_window ev.window) } := by
    rw [h3]
    simp [create_surface_handler, hclient, hid, find_unpaired, by_surface_id,
      map_shell_surface, wlr_xwm.set_list, wlr_xwm.get_list, wl_list_insert,
      wl_list_remove]
  rw [h1]
  exact ⟨by rw [h4, h2], h4⟩

/-- C3 (witness): window 7 new, no window unpaired, surface 42 of client 1 -/
theorem C3_pairing_order_independent_witness :
    (create_surface_handler
        (handle_client_message
          (handle_create_notify (empty_registry sample_atoms 1) (env_with [])
            (create_notify 7 0 0 100 50 false)).1
          (env_with []) (client_message 7 100 42)).1
        (surface_of 1 42)).1 =
      (handle_client_message
        (create_surface_handler
          (handle_create_notify (empty_registry sample_atoms 1) (env_with [])
            (create_notify 7 0 0 100 50 false)).1
          (surface_of 1 42)).1
        (env_with [surface_of 1 42]) (client_message 7 100 42)).1 :=
  (C3_pairing_order_independent
    (handle_create_notify (empty_registry sample_atoms 1) (env_with [])
      (create_notify 7 0 0 100 50 false)).1
    (env_with []) (env_with [surface_of 1 42]) (client_message 7 100 42)
    (surface_of 1 42) (created_node (create_notify 7 0 0 100 50 false))
    (by decide) (by decide) (by decide) (by decide) (by decide) (by decide) (by decide)
    (by decide)).1

/-! ## Claim C4 -/

/-- C4 (as stated, refuted). Window 7 is displayable at 0,0 and 100x50. After a
CreateNotify for window 7 at 5,6 and 10x20 with override-redirect set,
lookup_surface_any (7) still returns the displayable node with the old geometry, not
the node just linked into new_surfaces. -/
theorem C4_lookup_prefers_displayable :
    lookup_surface_any
        (handle_create_notify window_7_displayable (env_with [])
          (create_notify 7 5 6 10 20 true)).1 7 =
      some (surface_list.displayable,
        { window_id := 7, surface_id := 42, surface := some (surface_of 1 42), x := 0,
          y := 0, width := 100, height := 50, override_redirect := false }) ∧
    lookup_surface_any
        (handle_create_notify window_7_displayable (env_with [])
          (create_notify 7 5 6 10 20 true)).1 7 ≠
      some (surface_list.new, created_node (create_notify 7 5 6 10 20 true)) := by
  decide

/-- C4 (amended). When window w is in neither displayable_surfaces nor
unpaired_surfaces and the node is allocated, after a CreateNotify for w
lookup_surface_any (w) returns the node just linked into new_surfaces, with the
notified x, y, width, height and override_redirect. -/
theorem C4_create_notify_lookup (xwm : wlr_xwm) (env : Env) (ev : xcb_generic_event_t)
    (halloc : env.calloc = true)
    (hd : ev.window ∉ xwm.displayable_surfaces.map (fun s => s.window_id))
    (hu : ev.window ∉ xwm.unpaired_surfaces.map (fun s => s.window_id)) :
    lookup_surface_any (handle_create_notify xwm env ev).1 ev.window =
      some (surface_list.new, created_node ev) ∧
    (created_node ev).x = ev.x ∧ (created_node ev).y = ev.y ∧
    (created_node ev).width = ev.width ∧ (created_node ev).height = ev.height ∧
    (created_node ev).override_redirect = ev.override_redirect ∧
    (handle_create_notify xwm env ev).1.new_surfaces =
      created_node ev :: xwm.new_surfaces := by
  have h1 := lookup_surface_none.2 hd
  have h2 := lookup_surface_none.2 hu
  refine ⟨?_, rfl, rfl, rfl, rfl, rfl, ?_⟩
  · simp [handle_create_notify, wlr_xwayland_surface_create, halloc, lookup_surface_any,
      h1, h2, wl_list_insert, created_node]
    simp [lookup_surface, by_window]
  · simp [handle_create_notify, wlr_xwayland_surface_create, halloc, wl_list_insert,
      created_node]

/-- C4 (witness): a CreateNotify for window 8 while window 7 is displayable -/
theorem C4_create_notify_lookup_witness :
    lookup_surface_any
        (handle_create_notify window_7_displayable (env_with [])
          (create_notify 8 5 6 10 20 true)).1 8 =
      some (surface_list.new,
        { window_id := 8, surface_id := 0, surface := none, x := 5, y := 6, width := 10,
          height := 20, override_redirect := true }) :=
  (C4_create_notify_lookup window_7_displayable (env_with [])
    (create_notify 8 5 6 10 20 true) rfl (by decide) (by decide)).1

/-! ## Claim C5 -/

/-- C5 (as stated, refuted). When the reply for the first name is a protocol error
and the other six replies succeed, xcb_get_resources returns at the error: the slot
of WM_PROTOCOLS, whose reply carried atom 101, is still unset, as are all later
slots. -/
theorem C5_returns_at_first_error :
    first_reply_fails[WM_PROTOCOLS]? = some (intern_atom_result.reply 101) ∧
    (xcb_get_resources (xwm_create 1) first_reply_fails).atom WM_PROTOCOLS = 0 ∧
    (xcb_get_resources (xwm_create 1) first_reply_fails).atoms = [0, 0, 0, 0, 0, 0, 0] := by
  decide

/-- C5 (amended). Given one reply per name of atom_map, after xcb_get_resources a
name whose reply succeeded and that has no protocol error before it in the list has
its slot set to the replied atom; the name of the first protocol error, every name
after it, and every name without a reply keep the slot as it was. -/
theorem C5_atoms_until_first_error (xwm : wlr_xwm) (replies : List intern_atom_result)
    (i : Nat) (hlen : xwm.atoms.length = ATOM_LAST) (hrep : replies.length = ATOM_LAST)
    (hi : i < ATOM_LAST) :
    ((∀ j, j < i → ∀ c, replies[j]? ≠ some (intern_atom_result.error c)) →
      ∀ a, replies[i]? = some (intern_atom_result.reply a) →
        (xcb_get_resources xwm replies).atom i = a) ∧
    ((∃ j, j ≤ i ∧ ∃ c, replies[j]? = some (intern_atom_result.error c)) →
      (xcb_get_resources xwm replies).atom i = xwm.atom i) ∧
    (replies[i]? = some intern_atom_result.neither →
      (xcb_get_resources xwm replies).atom i = xwm.atom i) := by
  have ht : replies.take ATOM_LAST = replies := List.take_of_length_le (by omega)
  unfold xcb_get_resources wlr_xwm.atom
  rw [ht]
  refine ⟨?_, ?_, ?_⟩
  · intro hno a ha
    have := xcb_get_resources_loop_stored replies xwm.atoms 0 i a hno ha (by omega)
    simpa using this
  · intro h
    have := xcb_get_resources_loop_kept replies xwm.atoms 0 i (Or.inl h)
    simpa using this
  · intro h
    have := xcb_get_resources_loop_kept replies xwm.atoms 0 i (Or.inr h)
    simpa using this

/-- C5 (witness): the third request fails; WM_PROTOCOLS, before it, is resolved and
_NET_SUPPORTED, after it, is not -/
theorem C5_atoms_until_first_error_witness :
    (xcb_get_resources (xwm_create 1)
      [intern_atom_result.reply 100, intern_atom_result.reply 101,
       intern_atom_result.error 5, intern_atom_result.reply 103,
       intern_atom_result.reply 104, intern_atom_result.reply 105,
       intern_atom_result.reply 106]).atom WM_PROTOCOLS = 101 ∧
    (xcb_get_resources (xwm_create 1)
      [intern_atom_result.reply 100, intern_atom_result.reply 101,
       intern_atom_result.error 5, intern_atom_result.reply 103,
       intern_atom_result.reply 104, intern_atom_result.reply 105,
       intern_atom_result.reply 106]).atom NET_SUPPORTED = 0 :=
  ⟨(C5_atoms_until_first_error (xwm_create 1) _ WM_PROTOCOLS (by decide) (by decide)
      (by decide)).1 (by intro j hj c; cases j <;> simp_all [WM_PROTOCOLS]) 101 (by decide),
   (C5_atoms_until_first_error (xwm_create 1) _ NET_SUPPORTED (by decide) (by decide)
      (by decide)).2.1 ⟨2, by decide, 5, by decide⟩⟩

/-! ## Claim C6 -/

/-- C6. A WL_SURFACE_ID client message whose window is not in new_surfaces, be it
untracked, unpaired or displayable, leaves the whole state as it was and emits
nothing, so no new_surface signal. -/
theorem C6_client_message_not_new (xwm : wlr_xwm) (env : Env) (ev : xcb_generic_event_t)
    (h : ev.window ∉ xwm.new_surfaces.map (fun s => s.window_id)) :
    handle_client_message xwm env ev = (xwm, []) := by
  unfold handle_client_message
  split
  · simp [lookup_surface_none.2 h]
  · rfl

/-- C6 (witness): a WL_SURFACE_ID message for window 7, which is displayable, and
for window 9, which is untracked -/
theorem C6_client_message_not_new_witness :
    handle_client_message window_7_displayable (env_with [surface_of 1 43])
        (client_message 7 100 43) = (window_7_displayable, []) ∧
    handle_client_message window_7_displayable (env_with [surface_of 1 43])
        (client_message 9 100 43) = (window_7_displayable, []) :=
  ⟨C6_client_message_not_new window_7_displayable (env_with [surface_of 1 43])
    (client_message 7 100 43) (by decide), by decide⟩

/-! ## Claim C7 -/

/-- C7. DestroyNotify for a window in none of the three lists changes nothing and
emits nothing. For a tracked window, the node lookup_surface_any returns, the first
one with that id in its list, is unlinked from that list; the other two lists, and
the other nodes of that list, stay as they were, and the destroy signal of that node
is emitted once, with nothing else. -/
theorem C7_destroy_notify (xwm : wlr_xwm) (ev : xcb_generic_event_t) :
    (ev.window ∉ window_ids xwm → handle_destroy_notify xwm ev = (xwm, [])) ∧
    (ev.window ∈ window_ids xwm →
      ∃ l s before after,
        lookup_surface_any xwm ev.window = some (l, s) ∧
        s.window_id = ev.window ∧
        xwm.get_list l = before ++ s :: after ∧
        (∀ t ∈ before, t.window_id ≠ ev.window) ∧
        (handle_destroy_notify xwm ev).1.get_list l = before ++ after ∧
        (∀ l2, l2 ≠ l → (handle_destroy_notify xwm ev).1.get_list l2 = xwm.get_list l2) ∧
        (handle_destroy_notify xwm ev).1.atoms = xwm.atoms ∧
        (handle_destroy_notify xwm ev).1.client = xwm.client ∧
        (handle_destroy_notify xwm ev).2 = [Effect.signal_destroy s]) := by
  constructor
  · intro h
    simp [handle_destroy_notify, lookup_surface_any_none.2 h]
  · intro h
    cases hl : lookup_surface_any xwm ev.window with
    | none => exact absurd h (lookup_surface_any_none.1 hl)
    | some p =>
      obtain ⟨l, s⟩ := p
      have hf := lookup_surface_any_some hl
      obtain ⟨before, after, h1, h2, _, h4, _⟩ := first_node_split hf id
      refine ⟨l, s, before, after, rfl, (lookup_surface_some hf).2, h1, ?_, ?_, ?_, ?_, ?_,
        ?_⟩
      · intro t ht
        have := h2 t ht
        simpa [by_window] using this
      · simp [handle_destroy_notify, hl, wlr_xwayland_surface_destroy, get_list_set_list,
          h4]
      · intro l2 hne
        simp [handle_destroy_notify, hl, wlr_xwayland_surface_destroy, get_list_set_list,
          hne]
      · simp only [handle_destroy_notify, hl, wlr_xwayland_surface_destroy]
        cases l <;> rfl
      · simp only [handle_destroy_notify, hl, wlr_xwayland_surface_destroy]
        cases l <;> rfl
      · simp [handle_destroy_notify, hl, wlr_xwayland_surface_destroy]

/-- C7 (witness): DestroyNotify for the displayable window 7 empties the registry
and emits its destroy signal; DestroyNotify for window 9 does nothing -/
theorem C7_destroy_notify_witness :
    handle_destroy_notify window_7_displayable (window_event XCB_DESTROY_NOTIFY 9) =
      (window_7_displayable, []) ∧
    handle_destroy_notify window_7_displayable (window_event XCB_DESTROY_NOTIFY 7) =
      (empty_registry sample_atoms 1,
       [Effect.signal_destroy
         { window_id := 7, surface_id := 42, surface := some (surface_of 1 42), x := 0,
           y := 0, width := 100, height := 50, override_redirect := false }]) :=
  ⟨(C7_destroy_notify window_7_displayable (window_event XCB_DESTROY_NOTIFY 9)).1
    (by decide), by decide⟩

/-! ## Claim C8 -/

/-- C8. End-to-end lifecycle from the empty registry, each X11 event handed to
x11_event_handler as a queue of one. CreateNotify for w links its node into
new_surfaces; the WL_SURFACE_ID message (w, s), while the client has no object s,
moves the node to unpaired_surfaces with surface_id s; the surface-created signal
for s moves it to displayable_surfaces with that surface bound and emits new_surface
once, with the node as payload, then a flush; UnmapNotify for w unlinks the node
and emits its destroy signal once, and lookup_surface_any (w) finds nothing. -/
theorem C8_lifecycle (atoms : List Nat) (client w s : Nat) (x y : Int)
    (width height : Nat) (o : Bool) (env1 env2 env4 : Env) (surface : wlr_surface)
    (halloc : env1.calloc = true)
    (habsent : env2.wl_client_get_object client s = none)
    (hid : surface.resource.id = s) (hclient : surface.resource.client = client) :
    x11_event_handler (empty_registry atoms client)
        [(env1, create_notify w x y width height o)] =
      (1, { empty_registry atoms client with
            new_surfaces := [created_node (create_notify w x y width height o)] },
       [Effect.xcb_flush]) ∧
    x11_event_handler
        { empty_registry atoms client with
          new_surfaces := [created_node (create_notify w x y width height o)] }
        [(env2, client_message w ((empty_registry atoms client).atom WL_SURFACE_ID) s)] =
      (1, { empty_registry atoms client with
            unpaired_surfaces :=
              [{ created_node (create_notify w x y width height o) with surface_id := s }] },
       [Effect.xcb_flush]) ∧
    create_surface_handler
        { empty_registry atoms client with
          unpaired_surfaces :=
            [{ created_node (create_notify w x y width height o) with surface_id := s }] }
        surface =
      ({ empty_registry atoms client with
         displayable_surfaces :=
           [{ created_node (create_notify w x y width height o) with
              surface_id := s, surface := some surface }] },
       [Effect.signal_new_surface
          { created_node (create_notify w x y width height o) with
            surface_id := s, surface := some surface },
        Effect.xcb_flush]) ∧
    x11_event_handler
        { empty_registry atoms client with
          displayable_surfaces :=
            [{ created_node (create_notify w x y width height o) with
               surface_id := s, surface := some surface }] }
        [(env4, window_event XCB_UNMAP_NOTIFY w)] =
      (1, empty_registry atoms client,
       [Effect.signal_destroy
          { created_node (create_notify w x y width height o) with
            surface_id := s, surface := some surface },
        Effect.xcb_flush]) ∧
    lookup_surface_any (empty_registry atoms client) w = none := by
  refine ⟨?_, ?_, ?_, ?_, ?_⟩
  · rw [x11_event_handler_single, handle_event_create_notify _ _ _ (by exact mask_create_notify)]
    simp [handle_create_notify, wlr_xwayland_surface_create, halloc, wl_list_insert,
      created_node, empty_registry]
  · rw [x11_event_handler_single, handle_event_client_message _ _ _ (by exact mask_client_message)]
    simp [client_message, handle_client_message, lookup_surface,
      by_window, created_node, create_notify, empty_registry, wlr_xwm.atom,
      xcb_generic_event_t.data32_at, habsent, wl_list_insert, wl_list_remove]
  · simp [create_surface_handler, hclient, hid, find_unpaired, by_surface_id,
      created_node, create_notify, empty_registry, map_shell_surface, wlr_xwm.set_list,
      wlr_xwm.get_list, wl_list_insert, wl_list_remove]
  · rw [x11_event_handler_single, handle_event_unmap_notify _ _ _ (by exact mask_unmap_notify)]
    simp [window_event, handle_unmap_notify, lookup_surface_any, lookup_surface,
      by_window, created_node, create_notify, empty_registry,
      wlr_xwayland_surface_destroy, wlr_xwm.set_list,
      wlr_xwm.get_list, wl_list_remove]
  · simp [lookup_surface_any, lookup_surface, empty_registry]

/-- C8 (witness): window 7 at 0,0 and 100x50, not override-redirect, paired with
surface 42 -/
theorem C8_lifecycle_witness :
    (run (empty_registry sample_atoms 1)
      [Input.x11 (env_with []) (create_notify 7 0 0 100 50 false),
       Input.x11 (env_with []) (client_message 7 100 42),
       Input.create_surface (surface_of 1 42),
       Input.x11 (env_with []) (window_event XCB_UNMAP_NOTIFY 7)]) =
      (empty_registry sample_atoms 1,
       [Effect.signal_new_surface
          { window_id := 7, surface_id := 42, surface := some (surface_of 1 42), x := 0,
            y := 0, width := 100, height := 50, override_redirect := false },
        Effect.xcb_flush,
        Effect.signal_destroy
          { window_id := 7, surface_id := 42, surface := some (surface_of 1 42), x := 0,
            y := 0, width := 100, height := 50, override_redirect := false }]) ∧
    x11_event_handler
        { empty_registry sample_atoms 1 with
          displayable_surfaces :=
            [{ created_node (create_notify 7 0 0 100 50 false) with
               surface_id := 42, surface := some (surface_of 1 42) }] }
        [(env_with [], window_event XCB_UNMAP_NOTIFY 7)] =
      (1, empty_registry sample_atoms 1,
       [Effect.signal_destroy
          { created_node (create_notify 7 0 0 100 50 false) with
            surface_id := 42, surface := some (surface_of 1 42) },
        Effect.xcb_flush]) :=
  ⟨by decide,
   (C8_lifecycle sample_atoms 1 7 42 0 0 100 50 false (env_with []) (env_with [])
      (env_with []) (surface_of 1 42) rfl rfl rfl rfl).2.2.2.1⟩

/-! ## Claim C9 -/

/-- C9. ConfigureRequest for a tracked window stores the requested x, y, width and
height in the node lookup_surface_any returns, leaves everything else as it was,
and emits one configure-window request for that window with the mask
X|Y|WIDTH|HEIGHT|BORDER_WIDTH (31) and the values x, y, width, height, 0 as
uint32_t; for an untracked window it emits nothing and changes nothing. -/
theorem C9_configure_request (xwm : wlr_xwm) (ev : xcb_generic_event_t)
    (hx : -32768 ≤ ev.x ∧ ev.x < 32768) (hy : -32768 ≤ ev.y ∧ ev.y < 32768)
    (hw : ev.width < 65536) (hh : ev.height < 65536) :
    (ev.window ∉ window_ids xwm → handle_configure_request xwm ev = (xwm, [])) ∧
    (∀ l s, lookup_surface_any xwm ev.window = some (l, s) →
      lookup_surface_any (handle_configure_request xwm ev).1 ev.window =
        some (l, { s with x := ev.x, y := ev.y, width := ev.width, height := ev.height }) ∧
      (∃ before after, xwm.get_list l = before ++ s :: after ∧
        (handle_configure_request xwm ev).1.get_list l =
          before ++ { s with x := ev.x, y := ev.y, width := ev.width,
                             height := ev.height } :: after) ∧
      (∀ l2, l2 ≠ l →
        (handle_configure_request xwm ev).1.get_list l2 = xwm.get_list l2) ∧
      (handle_configure_request xwm ev).2 =
        [Effect.xcb_configure_window ev.window 31
          [to_uint32 ev.x, to_uint32 ev.y, ev.width, ev.height, 0]] ∧
      wire_int16 (to_uint32 ev.x) = ev.x ∧ wire_int16 (to_uint32 ev.y) = ev.y) := by
  constructor
  · intro h
    simp [handle_configure_request, lookup_surface_any_none.2 h]
  · intro l s hl
    have hf := lookup_surface_any_some hl
    obtain ⟨before, after, h1, _, _, _, h5⟩ := first_node_split hf
      (fun surface =>
        { surface with x := ev.x, y := ev.y, width := ev.width, height := ev.height })
    refine ⟨?_, ⟨before, after, h1, ?_⟩, ?_, ?_, wire_int16_to_uint32 _ hx.1 hx.2,
      wire_int16_to_uint32 _ hy.1 hy.2⟩
    · simp only [handle_configure_request, hl]
      exact lookup_surface_any_set_list hl (lookup_surface_store hf _ rfl)
    · simp only [handle_configure_request, hl, get_list_set_list, if_true]
      exact h5
    · intro l2 hne
      simp [handle_configure_request, hl, get_list_set_list, hne]
    · simp only [handle_configure_request, hl]
      rw [to_uint32_of_nat ev.width (by omega), to_uint32_of_nat ev.height (by omega)]
      rfl

/-- C9 (witness): a ConfigureRequest moving the displayable window 7 to -3,4 and
10x20 -/
theorem C9_configure_request_witness :
    handle_configure_request window_7_displayable (configure_request 7 (-3) 4 10 20) =
      ({ window_7_displayable with
         displayable_surfaces :=
           [{ window_id := 7, surface_id := 42, surface := some (surface_of 1 42), x := -3,
              y := 4, width := 10, height := 20, override_redirect := false }] },
       [Effect.xcb_configure_window 7 31 [4294967293, 4, 10, 20, 0]]) ∧
    wire_int16 (to_uint32 (-3)) = -3 :=
  ⟨by decide,
   ((C9_configure_request window_7_displayable (configure_request 7 (-3) 4 10 20)
      (by decide) (by decide) (by decide) (by decide)).2 surface_list.displayable
      { window_id := 7, surface_id := 42, surface := some (surface_of 1 42), x := 0,
        y := 0, width := 100, height := 50, override_redirect := false }
      (by decide)).2.2.2.2.1⟩

/-! ## Claim C10 -/

/-- C10. MapNotify for a tracked window changes only the override_redirect of the
node lookup_surface_any returns: the node stays at its place in its list with its
geometry, surface_id and surface, the other lists are untouched and no node is
added. For an untracked window, when the node is allocated, one node is linked at
the head of new_surfaces with that window id, x = 0, y = 0, width = 1, height = 1
and the notified override_redirect. Nothing is emitted either way. -/
theorem C10_map_notify (xwm : wlr_xwm) (env : Env) (ev : xcb_generic_event_t) :
    (∀ l s, lookup_surface_any xwm ev.window = some (l, s) →
      (∃ before after, xwm.get_list l = before ++ s :: after ∧
        (∀ t ∈ before, t.window_id ≠ ev.window) ∧
        (handle_map_notify xwm env ev).1.get_list l =
          before ++ { s with override_redirect := ev.override_redirect } :: after) ∧
      (∀ l2, l2 ≠ l → (handle_map_notify xwm env ev).1.get_list l2 = xwm.get_list l2) ∧
      (handle_map_notify xwm env ev).1.atoms = xwm.atoms ∧
      (handle_map_notify xwm env ev).1.client = xwm.client ∧
      (handle_map_notify xwm env ev).2 = []) ∧
    (ev.window ∉ window_ids xwm → env.calloc = true →
      handle_map_notify xwm env ev =
        ({ xwm with new_surfaces := synthesized_node ev :: xwm.new_surfaces }, [])) := by
  constructor
  · intro l s hl
    have hf := lookup_surface_any_some hl
    obtain ⟨before, after, h1, h2, _, _, h5⟩ := first_node_split hf
      (fun surface => { surface with override_redirect := ev.override_redirect })
    refine ⟨⟨before, after, h1, ?_, ?_⟩, ?_, ?_, ?_, ?_⟩
    · intro t ht
      have := h2 t ht
      simpa [by_window] using this
    · simp only [handle_map_notify, hl, get_list_set_list, if_true]
      exact h5
    · intro l2 hne
      simp [handle_map_notify, hl, get_list_set_list, hne]
    · simp only [handle_map_notify, hl]
      cases l <;> rfl
    · simp only [handle_map_notify, hl]
      cases l <;> rfl
    · simp [handle_map_notify, hl]
  · intro h halloc
    simp [handle_map_notify, lookup_surface_any_none.2 h, wlr_xwayland_surface_create,
      halloc, wl_list_insert, synthesized_node]

/-- C10 (witness): MapNotify for the untracked window 9 and for the displayable
window 7 -/
theorem C10_map_notify_witness :
    handle_map_notify window_7_displayable (env_with []) (map_notify 9 true) =
      ({ window_7_displayable with
         new_surfaces :=
           [{ window_id := 9, surface_id := 0, surface := none, x := 0, y := 0, width := 1,
              height := 1, override_redirect := true }] }, []) ∧
    handle_map_notify window_7_displayable (env_with []) (map_notify 7 true) =
      ({ window_7_displayable with
         displayable_surfaces :=
           [{ window_id := 7, surface_id := 42, surface := some (surface_of 1 42), x := 0,
              y := 0, width := 100, height := 50, override_redirect := true }] }, []) :=
  ⟨(C10_map_notify window_7_displayable (env_with []) (map_notify 9 true)).2
    (by decide) rfl, by decide⟩

/-! ## Claim C11 -/

/-- C11. One call of x11_event_handler on a queue of n events returns n, leaves the
state that handling the events one after the other from the left leaves, and emits
what those handlers emit, in order, followed by one xcb_flush; the handlers emit no
flush, so the call flushes exactly once, after the last event. -/
theorem C11_drain_then_flush_once (xwm : wlr_xwm)
    (queue : List (Env × xcb_generic_event_t)) :
    (x11_event_handler xwm queue).1 = queue.length ∧
    (x11_event_handler xwm queue).2.1 =
      queue.foldl (fun st p => (handle_event st p.1 p.2).1) xwm ∧
    (x11_event_handler xwm queue).2.2 = fold_effects xwm queue ++ [Effect.xcb_flush] ∧
    Effect.xcb_flush ∉ fold_effects xwm queue ∧
    List.count Effect.xcb_flush (x11_event_handler xwm queue).2.2 = 1 := by
  rw [x11_event_handler_eq]
  refine ⟨rfl, rfl, rfl, flush_not_mem_fold_effects queue xwm, ?_⟩
  simp only [List.count_append]
  rw [List.count_eq_zero_of_not_mem (flush_not_mem_fold_effects queue xwm)]
  decide

/-- C11 (witness): a queue of three events, a CreateNotify, a ConfigureRequest and a
MapRequest for window 7 -/
theorem C11_drain_then_flush_once_witness :
    x11_event_handler (empty_registry sample_atoms 1)
        [(env_with [], create_notify 7 0 0 100 50 false),
         (env_with [], configure_request 7 1 2 30 40),
         (env_with [], window_event XCB_MAP_REQUEST 7)] =
      (3,
       { empty_registry sample_atoms 1 with
         new_surfaces := [created_node (create_notify 7 1 2 30 40 false)] },
       [Effect.xcb_configure_window 7 31 [1, 2, 30, 40, 0],
        Effect.xcb_change_window_attributes_checked 7 2048 [6291456],
        Effect.xcb_map_window_checked 7,
        Effect.xcb_flush]) ∧
    List.count Effect.xcb_flush
      (x11_event_handler (empty_registry sample_atoms 1)
        [(env_with [], create_notify 7 0 0 100 50 false),
         (env_with [], configure_request 7 1 2 30 40),
         (env_with [], window_event XCB_MAP_REQUEST 7)]).2.2 = 1 :=
  ⟨by decide,
   (C11_drain_then_flush_once (empty_registry sample_atoms 1)
      [(env_with [], create_notify 7 0 0 100 50 false),
       (env_with [], configure_request 7 1 2 30 40),
       (env_with [], window_event XCB_MAP_REQUEST 7)]).2.2.2.2⟩

/-! ## Claim C12 -/

/-- C12. Across every sequence of X11 events and surface-created signals from the
empty registry: a step either emits no new_surface signal and does not lengthen
displayable_surfaces, or it takes one node without a bound surface out of
new_surfaces or unpaired_surfaces, puts it with the surface bound at the head of
displayable_surfaces, and emits exactly one new_surface signal, with that node as
payload. And no node is announced twice: when every node carries the serial number
of its allocation, which changes nothing of what the code does or emits, every
new_surface signal carries the serial of its node, no two linked nodes share a
serial, no serial occurs twice among the new_surface signals of the run, and no
node that was announced is in unpaired_surfaces or new_surfaces again. -/
theorem C12_new_surface_once_per_pairing (atoms : List Nat) (client : Nat)
    (inputs : List Input) (i : Input) :
    ((new_surface_signals (step (run (empty_registry atoms client) inputs).1 i).2 = [] ∧
        (step (run (empty_registry atoms client) inputs).1 i).1.displayable_surfaces.length ≤
          (run (empty_registry atoms client) inputs).1.displayable_surfaces.length) ∨
      (∃ l e sid surface, l ≠ surface_list.displayable ∧
        e ∈ (run (empty_registry atoms client) inputs).1.get_list l ∧ e.surface = none ∧
        new_surface_signals (step (run (empty_registry atoms client) inputs).1 i).2 =
          [{ e with surface_id := sid, surface := some surface }] ∧
        (step (run (empty_registry atoms client) inputs).1 i).1.displayable_surfaces =
          { e with surface_id := sid, surface := some surface } ::
            (run (empty_registry atoms client) inputs).1.displayable_surfaces ∧
        ((step (run (empty_registry atoms client) inputs).1 i).1.get_list l).length + 1 =
          ((run (empty_registry atoms client) inputs).1.get_list l).length)) ∧
    (tracked_run (tracked_empty atoms client) inputs).1.forget =
      (run (empty_registry atoms client) inputs).1 ∧
    forget_effect_serials (tracked_run (tracked_empty atoms client) inputs).2 =
      (run (empty_registry atoms client) inputs).2 ∧
    (∀ e ∈ (tracked_run (tracked_empty atoms client) inputs).2, serial_missing e = false) ∧
    (announced_serials (tracked_run (tracked_empty atoms client) inputs).2).length =
      (new_surface_signals (run (empty_registry atoms client) inputs).2).length ∧
    (tracked_serials (tracked_run (tracked_empty atoms client) inputs).1).Nodup ∧
    (announced_serials (tracked_run (tracked_empty atoms client) inputs).2).Nodup ∧
    (∀ n ∈ (tracked_run (tracked_empty atoms client) inputs).1.unpaired_surfaces ++
        (tracked_run (tracked_empty atoms client) inputs).1.new_surfaces,
      n.serial ∉ announced_serials (tracked_run (tracked_empty atoms client) inputs).2) := by
  have hsim := forget_tracked_run inputs (tracked_empty atoms client)
  have hinv := tracked_inv_run inputs (tracked_empty atoms client) []
    (tracked_inv_empty atoms client)
  have hn := nodup_of_tracked_inv hinv
  have hp := serials_present_run inputs (tracked_empty atoms client)
  refine ⟨?_, hsim.1, hsim.2, hp, ?_, hn.1, by simpa using hn.2,
    fun n hm => by simpa using not_announced_of_tracked_inv hinv n hm⟩
  · have hb := surfaces_bound_run (surfaces_bound_empty atoms client) inputs
    generalize (run (empty_registry atoms client) inputs).1 = xwm at hb ⊢
    rcases step_shape xwm i with ⟨_, h2, h3⟩ | ⟨l, s, h1, h2⟩ | ⟨l, e, sid, surface, tail,
      h1, h2, h3, h4, h5, h6⟩
    · refine Or.inl ⟨h2, ?_⟩
      have := congrArg List.length h3
      simp only [List.length_map] at this
      omega
    · refine Or.inl ⟨by rw [h1]; rfl, ?_⟩
      rw [h2]
      cases l
      · exact (List.eraseP_sublist _).length_le
      · exact Nat.le_refl _
      · exact Nat.le_refl _
    · refine Or.inr ⟨l, e, sid, surface, h1, h2, ?_, ?_, h5, h6⟩
      · have := hb l e h2
        by_contra hne
        exact h1 (this.1 hne)
      · rw [h3]
        rcases h4 with rfl | rfl <;> rfl
  · rw [announced_length_of_serials _ hp, hsim.2]
    rfl

/-- C12 (witness): two nodes carry window id 7; both are paired and announced, the
newer one (serial 1) first, each once -/
theorem C12_new_surface_once_per_pairing_witness :
    (new_surface_signals (run (empty_registry sample_atoms 1) duplicate_id_inputs).2).map
        (fun s => s.window_id) = [7, 7] ∧
    announced_serials (tracked_run (tracked_empty sample_atoms 1) duplicate_id_inputs).2 =
      [1, 0] ∧
    (announced_serials
      (tracked_run (tracked_empty sample_atoms 1) duplicate_id_inputs).2).Nodup :=
  ⟨by decide, by decide,
   (C12_new_surface_once_per_pairing sample_atoms 1 duplicate_id_inputs
      (Input.create_surface (surface_of 1 42))).2.2.2.2.2.2.1⟩

/-! ## Claim C13 -/

/-- C13. lookup_surface_any (w) returns the first node with window id w of
displayable_surfaces if there is one, otherwise the first such node of
unpaired_surfaces, otherwise the first such node of new_surfaces, and it returns
nothing exactly when no node of the three lists has window id w. -/
theorem C13_lookup_priority (xwm : wlr_xwm) (w : Nat) :
    (∀ before s after, xwm.displayable_surfaces = before ++ s :: after →
      s.window_id = w → (∀ t ∈ before, t.window_id ≠ w) →
      lookup_surface_any xwm w = some (surface_list.displayable, s)) ∧
    (∀ before s after, xwm.unpaired_surfaces = before ++ s :: after →
      s.window_id = w → (∀ t ∈ before, t.window_id ≠ w) →
      (∀ t ∈ xwm.displayable_surfaces, t.window_id ≠ w) →
      lookup_surface_any xwm w = some (surface_list.unpaired, s)) ∧
    (∀ before s after, xwm.new_surfaces = before ++ s :: after →
      s.window_id = w → (∀ t ∈ before, t.window_id ≠ w) →
      (∀ t ∈ xwm.displayable_surfaces, t.window_id ≠ w) →
      (∀ t ∈ xwm.unpaired_surfaces, t.window_id ≠ w) →
      lookup_surface_any xwm w = some (surface_list.new, s)) ∧
    (lookup_surface_any xwm w = none ↔
      ∀ l, ∀ t ∈ xwm.get_list l, t.window_id ≠ w) := by
  have hnone : ∀ list : List wlr_xwayland_surface,
      (∀ t ∈ list, t.window_id ≠ w) → lookup_surface list w = none := by
    intro list h
    apply lookup_surface_none.2
    simp only [List.mem_map, not_exists, not_and]
    exact fun t ht => h t ht
  refine ⟨?_, ?_, ?_, ?_⟩
  · intro before s after h hs hb
    simp [lookup_surface_any, h, lookup_surface_first hs hb]
  · intro before s after h hs hb hd
    simp [lookup_surface_any, hnone _ hd, h, lookup_surface_first hs hb]
  · intro before s after h hs hb hd hu
    simp [lookup_surface_any, hnone _ hd, hnone _ hu, h, lookup_surface_first hs hb]
  · rw [lookup_surface_any_none]
    simp only [window_ids, List.map_append, List.mem_append, List.mem_map, not_or,
      not_exists, not_and]
    constructor
    · rintro ⟨⟨h1, h2⟩, h3⟩ l t ht
      cases l
      · exact h1 t ht
      · exact h2 t ht
      · exact h3 t ht
    · intro h
      exact ⟨⟨h .displayable, h .unpaired⟩, h .new⟩

/-- C13 (witness): window 7 sits in all three lists with different geometry; the
lookup returns the displayable node -/
theorem C13_lookup_priority_witness :
    lookup_surface_any
        { atoms := sample_atoms, client := 1,
          new_surfaces := [created_node (create_notify 7 3 3 30 30 false)],
          unpaired_surfaces := [created_node (create_notify 7 2 2 20 20 false)],
          displayable_surfaces :=
            [created_node (create_notify 5 0 0 10 10 false),
             created_node (create_notify 7 1 1 10 10 false),
             created_node (create_notify 7 9 9 90 90 false)] } 7 =
      some (surface_list.displayable, created_node (create_notify 7 1 1 10 10 false)) :=
  (C13_lookup_priority
      { atoms := sample_atoms, client := 1,
        new_surfaces := [created_node (create_notify 7 3 3 30 30 false)],
        unpaired_surfaces := [created_node (create_notify 7 2 2 20 20 false)],
        displayable_surfaces :=
          [created_node (create_notify 5 0 0 10 10 false),
           created_node (create_notify 7 1 1 10 10 false),
           created_node (create_notify 7 9 9 90 90 false)] } 7).1
    [created_node (create_notify 5 0 0 10 10 false)]
    (created_node (create_notify 7 1 1 10 10 false))
    [created_node (create_notify 7 9 9 90 90 false)] rfl rfl (by decide)

/-! ## Claim C14 -/

/-- C14. MapRequest for window w, tracked or not and whatever the server answers to
the checked requests, leaves the state as it is and emits two requests against w,
in this order: change-window-attributes with value mask XCB_CW_EVENT_MASK and the
event mask FOCUS_CHANGE | PROPERTY_CHANGE, then map-window. -/
theorem C14_map_request (xwm : wlr_xwm) (env : Env) (ev : xcb_generic_event_t) :
    handle_map_request xwm env ev =
      (xwm,
       [Effect.xcb_change_window_attributes_checked ev.window XCB_CW_EVENT_MASK
          [XCB_EVENT_MASK_FOCUS_CHANGE ||| XCB_EVENT_MASK_PROPERTY_CHANGE],
        Effect.xcb_map_window_checked ev.window]) ∧
    XCB_EVENT_MASK_FOCUS_CHANGE ||| XCB_EVENT_MASK_PROPERTY_CHANGE = 6291456 ∧
    (ev.response_type &&& XCB_EVENT_RESPONSE_TYPE_MASK = XCB_MAP_REQUEST →
      handle_event xwm env ev = handle_map_request xwm env ev) := by
  refine ⟨rfl, by decide, ?_⟩
  · intro h
    unfold handle_event
    simp [h, XCB_MAP_REQUEST, XCB_CREATE_NOTIFY, XCB_DESTROY_NOTIFY, XCB_CONFIGURE_REQUEST]

/-- C14 (witness): a MapRequest for the untracked window 9 reaching the switch
while the server rejects every checked request -/
theorem C14_map_request_witness :
    xcb_call env_rejecting
        (Effect.xcb_change_window_attributes_checked 9 XCB_CW_EVENT_MASK [6291456]) =
      false ∧
    handle_event window_7_displayable env_rejecting (window_event XCB_MAP_REQUEST 9) =
      (window_7_displayable,
       [Effect.xcb_change_window_attributes_checked 9 2048 [6291456],
        Effect.xcb_map_window_checked 9]) :=
  ⟨by decide,
   ((C14_map_request window_7_displayable env_rejecting
      (window_event XCB_MAP_REQUEST 9)).2.2 (by decide)).trans
    (C14_map_request window_7_displayable env_rejecting
      (window_event XCB_MAP_REQUEST 9)).1⟩

/-! ## Claim C15 -/

/-- C15. wlr_xwayland_surface_activate on a node with window id w emits, in this
order, a send-event to w with the substructure-redirect event mask carrying a
32-bit-format ClientMessage for window w of type atoms[WM_PROTOCOLS] with
data32[0] = atoms[WM_TAKE_FOCUS] and data32[1] = XCB_TIME_CURRENT_TIME, a
set-input-focus on w, a configure-window on w with the stack-mode mask and the
value Above, and one flush; the state is unchanged. -/
theorem C15_activate (xwm : wlr_xwm) (surface : wlr_xwayland_surface) :
    ∃ m : xcb_generic_event_t,
      wlr_xwayland_surface_activate xwm surface =
        (xwm,
         [Effect.xcb_send_event_checked 0 surface.window_id
            XCB_EVENT_MASK_SUBSTRUCTURE_REDIRECT m 32,
          Effect.xcb_set_input_focus_checked XCB_INPUT_FOCUS_POINTER_ROOT
            surface.window_id XCB_CURRENT_TIME,
          Effect.xcb_configure_window_checked surface.window_id
            XCB_CONFIG_WINDOW_STACK_MODE [XCB_STACK_MODE_ABOVE],
          Effect.xcb_flush]) ∧
      m.response_type = XCB_CLIENT_MESSAGE ∧ m.window = surface.window_id ∧
      m.type = xwm.atom WM_PROTOCOLS ∧ m.data32_at 0 = xwm.atom WM_TAKE_FOCUS ∧
      m.data32_at 1 = XCB_TIME_CURRENT_TIME ∧ m.data32_at 2 = 0 ∧ m.data32_at 3 = 0 ∧
      m.data32_at 4 = 0 :=
  ⟨_, rfl, rfl, rfl, rfl, rfl, rfl, rfl, rfl, rfl⟩

/-- C15 (witness): activating window 7 with the atoms 100 .. 106 -/
theorem C15_activate_witness :
    wlr_xwayland_surface_activate window_7_displayable
        (created_node (create_notify 7 0 0 100 50 false)) =
      (window_7_displayable,
       [Effect.xcb_send_event_checked 0 7 1048576 (client_message 7 101 106) 32,
        Effect.xcb_set_input_focus_checked 1 7 0,
        Effect.xcb_configure_window_checked 7 64 [0],
        Effect.xcb_flush]) ∧
    ∃ m : xcb_generic_event_t,
      wlr_xwayland_surface_activate window_7_displayable
          (created_node (create_notify 7 0 0 100 50 false)) =
        (window_7_displayable,
         [Effect.xcb_send_event_checked 0 7 XCB_EVENT_MASK_SUBSTRUCTURE_REDIRECT m 32,
          Effect.xcb_set_input_focus_checked XCB_INPUT_FOCUS_POINTER_ROOT 7
            XCB_CURRENT_TIME,
          Effect.xcb_configure_window_checked 7 XCB_CONFIG_WINDOW_STACK_MODE
            [XCB_STACK_MODE_ABOVE],
          Effect.xcb_flush]) ∧
      m.type = 101 ∧ m.data32_at 0 = 106 :=
  ⟨by decide,
   (C15_activate window_7_displayable
      (created_node (create_notify 7 0 0 100 50 false))).elim
    (fun m h => ⟨m, h.1, h.2.2.2.1, h.2.2.2.2.1⟩)⟩

/-! ## Claim C16 -/

/-- C16. xwm_destroy emits the destroy signal of every node of
displayable_surfaces, then of new_surfaces, then of unpaired_surfaces, each once and
with the node as payload, and leaves the three lists empty; around them it removes
the event source when there is one, and at the end unhooks the surface-created
listener and disconnects. -/
theorem C16_xwm_destroy (xwm : wlr_xwm) (event_source : Bool) :
    (xwm_destroy xwm event_source).1.displayable_surfaces = [] ∧
    (xwm_destroy xwm event_source).1.new_surfaces = [] ∧
    (xwm_destroy xwm event_source).1.unpaired_surfaces = [] ∧
    destroy_signals (xwm_destroy xwm event_source).2 =
      xwm.displayable_surfaces ++ xwm.new_surfaces ++ xwm.unpaired_surfaces ∧
    (xwm_destroy xwm event_source).2 =
      (if event_source then [Effect.wl_event_source_remove] else []) ++
        xwm.displayable_surfaces.map Effect.signal_destroy ++
        xwm.new_surfaces.map Effect.signal_destroy ++
        xwm.unpaired_surfaces.map Effect.signal_destroy ++
        [Effect.wl_list_remove_listener, Effect.xcb_disconnect] := by
  have h1 := xwm_destroy_loop_eq .displayable xwm.displayable_surfaces xwm rfl
  have h2 := xwm_destroy_loop_eq .new (xwm.set_list .displayable []).new_surfaces
    (xwm.set_list .displayable []) rfl
  have h3 := xwm_destroy_loop_eq .unpaired
    ((xwm.set_list .displayable []).set_list .new []).unpaired_surfaces
    ((xwm.set_list .displayable []).set_list .new []) rfl
  have he : (xwm_destroy xwm event_source).2 =
      (if event_source then [Effect.wl_event_source_remove] else []) ++
        xwm.displayable_surfaces.map Effect.signal_destroy ++
        xwm.new_surfaces.map Effect.signal_destroy ++
        xwm.unpaired_surfaces.map Effect.signal_destroy ++
        [Effect.wl_list_remove_listener, Effect.xcb_disconnect] := by
    simp only [xwm_destroy, h1, h2, h3]
    rfl
  refine ⟨?_, ?_, ?_, ?_, he⟩
  · simp only [xwm_destroy, h1, h2, h3]
    rfl
  · simp only [xwm_destroy, h1, h2, h3]
    rfl
  · simp only [xwm_destroy, h1, h2, h3]
    rfl
  · rw [he]
    simp only [destroy_signals_append, destroy_signals_map]
    cases event_source <;> simp [destroy_signals]

/-- C16 (witness): teardown with windows 2 and 1 unpaired and window 3 new -/
theorem C16_xwm_destroy_witness :
    xwm_destroy two_waiting true =
      (empty_registry sample_atoms 1,
       [Effect.wl_event_source_remove,
        Effect.signal_destroy (created_node (create_notify 3 0 0 100 50 false)),
        Effect.signal_destroy
          { created_node (create_notify 2 0 0 100 50 false) with surface_id := 42 },
        Effect.signal_destroy
          { created_node (create_notify 1 0 0 100 50 false) with surface_id := 42 },
        Effect.wl_list_remove_listener, Effect.xcb_disconnect]) ∧
    destroy_signals (xwm_destroy two_waiting true).2 =
      two_waiting.displayable_surfaces ++ two_waiting.new_surfaces ++
        two_waiting.unpaired_surfaces :=
  ⟨by decide, (C16_xwm_destroy two_waiting true).2.2.2.1⟩

/-! ## Claim C17 -/

/-- C17. A PropertyNotify event, or an event whose opcode is none of the eight of
the switch, leaves the state as it is and emits nothing; anywhere in a queue it
does not stop the drain: the call returns one more than without the event, with
the same final state and the same effects. -/
theorem C17_ignored_events (xwm : wlr_xwm) (env : Env) (ev : xcb_generic_event_t)
    (pre post : List (Env × xcb_generic_event_t))
    (h : ev.response_type &&& XCB_EVENT_RESPONSE_TYPE_MASK = XCB_PROPERTY_NOTIFY ∨
      handled_opcode ev.response_type = false) :
    handle_event xwm env ev = (xwm, []) ∧
    x11_event_handler xwm (pre ++ (env, ev) :: post) =
      ((x11_event_handler xwm (pre ++ post)).1 + 1,
       (x11_event_handler xwm (pre ++ post)).2.1,
       (x11_event_handler xwm (pre ++ post)).2.2) := by
  refine ⟨handle_event_ignored xwm env ev h, ?_⟩
  have hi := handle_event_ignored (fold_events xwm pre) env ev h
  have h1 : fold_events xwm (pre ++ (env, ev) :: post) = fold_events xwm (pre ++ post) := by
    rw [fold_events_append, fold_events_append, fold_events_cons, hi]
  have h2 : fold_effects xwm (pre ++ (env, ev) :: post) =
      fold_effects xwm (pre ++ post) := by
    rw [fold_effects_append, fold_effects_append, fold_effects_cons, hi]
    rfl
  simp only [x11_event_handler_eq, h1, h2, List.length_append, List.length_cons]
  rfl

/-- C17 (witness): a PropertyNotify and an event of opcode 5 between a CreateNotify
and an UnmapNotify for window 7 -/
theorem C17_ignored_events_witness :
    x11_event_handler (empty_registry sample_atoms 1)
        ([(env_with [], create_notify 7 0 0 100 50 false)] ++
          (env_with [], window_event XCB_PROPERTY_NOTIFY 7) ::
            [(env_with [], window_event XCB_UNMAP_NOTIFY 7)]) =
      (3, empty_registry sample_atoms 1,
       [Effect.signal_destroy (created_node (create_notify 7 0 0 100 50 false)),
        Effect.xcb_flush]) ∧
    handle_event window_7_displayable (env_with []) (window_event 5 7) =
      (window_7_displayable, []) :=
  ⟨((C17_ignored_events (empty_registry sample_atoms 1) (env_with [])
      (window_event XCB_PROPERTY_NOTIFY 7)
      [(env_with [], create_notify 7 0 0 100 50 false)]
      [(env_with [], window_event XCB_UNMAP_NOTIFY 7)] (Or.inl (by decide))).2).trans
    (by decide),
   (C17_ignored_events window_7_displayable (env_with []) (window_event 5 7) [] []
      (Or.inr (by decide))).1⟩

/-! ## Claim C18 -/

/-- C18. On a surface-created signal for a surface with object id s: when the
surface is not of the Xwayland client, or no node of unpaired_surfaces has
surface_id s, the state is unchanged and nothing is emitted. Otherwise the first
node of unpaired_surfaces with surface_id s gets the surface bound and moves to
the head of displayable_surfaces, every other node stays where it was, and one
new_surface signal with that node followed by one flush is emitted. new_surfaces
is never touched. -/
theorem C18_create_surface_handler (xwm : wlr_xwm) (surface : wlr_surface) :
    (surface.resource.client ≠ xwm.client ∨
        (∀ t ∈ xwm.unpaired_surfaces, t.surface_id ≠ surface.resource.id) →
      create_surface_handler xwm surface = (xwm, [])) ∧
    (surface.resource.client = xwm.client →
      ∀ before e after, xwm.unpaired_surfaces = before ++ e :: after →
        e.surface_id = surface.resource.id →
        (∀ t ∈ before, t.surface_id ≠ surface.resource.id) →
        create_surface_handler xwm surface =
          ({ xwm with
             unpaired_surfaces := before ++ after
             displayable_surfaces :=
               { e with surface := some surface } :: xwm.displayable_surfaces },
           [Effect.signal_new_surface { e with surface := some surface },
            Effect.xcb_flush])) ∧
    (create_surface_handler xwm surface).1.new_surfaces = xwm.new_surfaces := by
  refine ⟨?_, ?_, ?_⟩
  · rintro (h | h)
    · simp [create_surface_handler, h]
    · have : find_unpaired xwm.unpaired_surfaces surface.resource.id = none := by
        unfold find_unpaired
        rw [List.find?_eq_none]
        intro t ht
        simpa [by_surface_id] using h t ht
      simp [create_surface_handler, this]
  · intro hc before e after hu he hb
    have hf : find_unpaired xwm.unpaired_surfaces surface.resource.id = some e := by
      unfold find_unpaired
      rw [hu]
      apply find_first_node
      · simp [by_surface_id, he]
      · intro t ht
        simpa [by_surface_id] using hb t ht
    obtain ⟨b2, a2, h1, h2, _, h4, _⟩ := first_node_split hf id
    have hsame : b2 ++ a2 = before ++ after := by
      rw [← h4, hu]
      unfold wl_list_remove
      have hbf : ∀ t ∈ before, ¬ by_surface_id surface.resource.id t = true := by
        intro t ht
        simpa [by_surface_id] using hb t ht
      rw [List.eraseP_append_right _ hbf]
      simp [List.eraseP_cons, by_surface_id, he]
    simp only [create_surface_handler, hc, ne_eq, not_true_eq_false, if_false, hf,
      map_shell_surface, wlr_xwm.set_list, wlr_xwm.get_list, wl_list_insert, h4, hsame]
    rfl
  · unfold create_surface_handler
    split
    · rfl
    · dsimp only
      split <;> rfl

/-- C18 (witness): with windows 2 and 1 both waiting for surface 42, the signal
pairs window 2, the first of the list; a surface of another client pairs nothing -/
theorem C18_create_surface_handler_witness :
    create_surface_handler two_waiting (surface_of 1 42) =
      ({ two_waiting with
         unpaired_surfaces :=
           [{ created_node (create_notify 1 0 0 100 50 false) with surface_id := 42 }]
         displayable_surfaces :=
           [{ created_node (create_notify 2 0 0 100 50 false) with
              surface_id := 42, surface := some (surface_of 1 42) }] },
       [Effect.signal_new_surface
          { created_node (create_notify 2 0 0 100 50 false) with
            surface_id := 42, surface := some (surface_of 1 42) },
        Effect.xcb_flush]) ∧
    create_surface_handler two_waiting (surface_of 2 42) = (two_waiting, []) :=
  ⟨by decide,
   (C18_create_surface_handler two_waiting (surface_of 2 42)).1 (Or.inl (by decide))⟩

/-! ## Claim C19 -/

/-- C19. When no window id is tracked twice, the same holds after any X11 event
whose opcode is not CreateNotify and after any surface-created signal. MapNotify
for a tracked window leaves the tracked window ids as they are (it links a node
only when the window is in none of the lists), and the pairing steps, the
WL_SURFACE_ID message and the surface-created signal, only permute the tracked
window ids: a node is moved, never copied. -/
theorem C19_handlers_keep_ids_unique (xwm : wlr_xwm) (env : Env)
    (ev : xcb_generic_event_t) (surface : wlr_surface)
    (h : (window_ids xwm).Nodup) :
    (ev.response_type &&& XCB_EVENT_RESPONSE_TYPE_MASK ≠ XCB_CREATE_NOTIFY →
      (window_ids (handle_event xwm env ev).1).Nodup) ∧
    (window_ids (create_surface_handler xwm surface).1).Nodup ∧
    (ev.window ∈ window_ids xwm →
      window_ids (handle_map_notify xwm env ev).1 = window_ids xwm) ∧
    (ev.window ∉ window_ids xwm →
      (window_ids (handle_map_notify xwm env ev).1).Nodup) ∧
    (window_ids (handle_client_message xwm env ev).1).Perm (window_ids xwm) ∧
    (window_ids (create_surface_handler xwm surface).1).Perm (window_ids xwm) := by
  refine ⟨?_, unique_ids_create_surface_handler h surface, ?_, ?_,
    perm_window_ids_handle_client_message xwm env ev,
    perm_window_ids_create_surface_handler xwm surface⟩
  · intro hne
    exact unique_ids_handle_event h env ev (fun hc => absurd hc hne)
  · intro hm
    cases hl : lookup_surface_any xwm ev.window with
    | none => exact absurd hm (lookup_surface_any_none.1 hl)
    | some p =>
      simp only [handle_map_notify, hl]
      rw [window_ids_store]
      intro _
      rfl
  · intro hm
    have hl := lookup_surface_any_none.2 hm
    simp only [handle_map_notify, hl]
    exact unique_ids_create h _ _ _ _ _ _ _ hl

/-- C19 (witness): events of each kind on the state with windows 1 and 2 unpaired
and window 3 new -/
theorem C19_handlers_keep_ids_unique_witness :
    (window_ids two_waiting).Nodup ∧
    (window_ids (handle_event two_waiting (env_with []) (map_notify 4 true)).1).Nodup ∧
    (window_ids (create_surface_handler two_waiting (surface_of 1 42)).1).Nodup :=
  ⟨by decide,
   (C19_handlers_keep_ids_unique two_waiting (env_with []) (map_notify 4 true)
      (surface_of 1 42) (by decide)).1 (by decide),
   (C19_handlers_keep_ids_unique two_waiting (env_with []) (map_notify 4 true)
      (surface_of 1 42) (by decide)).2.1⟩

/-! ## Claim C20 -/

/-- C20. Routing looks only at the low seven bits of response_type: an event with
response_type r and the same event with response_type r XOR 0x80 have the same
masked opcode, are handled by the same handler with the same resulting state and
effects, and anywhere in a queue give the same count, state and effects. -/
theorem C20_sent_flag_ignored (xwm : wlr_xwm) (env : Env) (ev : xcb_generic_event_t)
    (r : Nat) (pre post : List (Env × xcb_generic_event_t)) :
    (r ^^^ 0x80) &&& XCB_EVENT_RESPONSE_TYPE_MASK = r &&& XCB_EVENT_RESPONSE_TYPE_MASK ∧
    handle_event xwm env (with_response_type ev (r ^^^ 0x80)) =
      handle_event xwm env (with_response_type ev r) ∧
    x11_event_handler xwm (pre ++ (env, with_response_type ev (r ^^^ 0x80)) :: post) =
      x11_event_handler xwm (pre ++ (env, with_response_type ev r) :: post) := by
  have hl := fun st => handle_event_low_bits st env ev (r ^^^ 0x80) r (xor_sent_flag_masked r)
  refine ⟨xor_sent_flag_masked r, hl xwm, ?_⟩
  simp only [x11_event_handler_eq, fold_events_append, fold_effects_append,
    fold_events_cons, fold_effects_cons, hl, List.length_append, List.length_cons]

/-- C20 (witness): a CreateNotify with response_type 16 and with response_type 144,
the same opcode with the sent-by-a-client bit set -/
theorem C20_sent_flag_ignored_witness :
    (16 ^^^ 0x80 = 144) ∧
    handle_event (empty_registry sample_atoms 1) (env_with [])
        (with_response_type (create_notify 7 0 0 100 50 false) (16 ^^^ 0x80)) =
      handle_event (empty_registry sample_atoms 1) (env_with [])
        (with_response_type (create_notify 7 0 0 100 50 false) 16) ∧
    (handle_event (empty_registry sample_atoms 1) (env_with [])
        (with_response_type (create_notify 7 0 0 100 50 false) 144)).1.new_surfaces =
      [created_node (create_notify 7 0 0 100 50 false)] :=
  ⟨by decide,
   (C20_sent_flag_ignored (empty_registry sample_atoms 1) (env_with [])
      (create_notify 7 0 0 100 50 false) 16 [] []).2.1, by decide⟩

end Xwm
